import Mathlib

/-!
Verification of the `cyrus` migration scripts: regex- and string-based
one-shot rewriters (`fix_create_activity.py`, `fix_method_signatures.py`,
`fix_last_three.py`, `packages/edge-worker/src/fix_all_create_activity.py`).

Texts are modelled as `List Char`.  Python's `re` is modelled by a small
backtracking engine over the exact constructs those scripts use
(literals, negated character classes, `\s`, greedy `+`/`*`, groups,
concatenation), with the semantics of leftmost search and
greedy-first backtracking priority, and `re.sub` as repeated
leftmost replacement that never rescans replacement text.
-/

set_option autoImplicit false

namespace Cyrus

/-- Python whitespace (`str.strip`, `str.isspace`, regex `\s`) restricted to
the ASCII characters that occur in the rewritten file. -/
def isWs (c : Char) : Bool :=
  c = ' ' || c = '\t' || c = '\n' || c = '\x0d' || c = '\x0b' || c = '\x0c'

/-- Python `str.lstrip()`. -/
def pyLstrip (l : List Char) : List Char := l.dropWhile isWs

/-- Python `str.strip()`. -/
def pyStrip (l : List Char) : List Char :=
  ((l.dropWhile isWs).reverse.dropWhile isWs).reverse

/-- The `if body.endswith(','): body = body[:-1]` idiom. -/
def stripComma (l : List Char) : List Char :=
  if l.getLast? = some ',' then l.dropLast else l

/-- Python `str.capitalize()`: first character upper-cased, all remaining
characters lower-cased (ASCII). -/
def pyCapitalize : List Char → List Char
  | [] => []
  | c :: cs => Char.toUpper c :: cs.map Char.toLower

/-- Python `str.startswith`. -/
def startsWith : List Char → List Char → Bool
  | [], _ => true
  | _ :: _, [] => false
  | p :: ps, c :: cs => p = c && startsWith ps cs

/-- Remove `s` from the front of `cs`, if it is a prefix. -/
def chopLead : List Char → List Char → Option (List Char)
  | [], cs => some cs
  | _ :: _, [] => none
  | p :: ps, c :: cs => if p = c then chopLead ps cs else none

/-- Leftmost occurrence search: `strFind needle hay = some (pre, post)`
with `hay = pre ++ needle ++ post`, `pre` shortest possible. -/
def strFind (needle : List Char) : List Char → Option (List Char × List Char)
  | [] =>
    match chopLead needle [] with
    | some r => some ([], r)
    | none => none
  | c :: cs =>
    match chopLead needle (c :: cs) with
    | some r => some ([], r)
    | none => (strFind needle cs).map (fun x => (c :: x.1, x.2))

/-- Python `in` on strings. -/
def containsSub (needle hay : List Char) : Bool := (strFind needle hay).isSome

/-- One step of Python `str.replace` (all occurrences, left to right,
no rescanning of the replacement), with fuel. -/
def pyReplaceAux (old new : List Char) : Nat → List Char → List Char
  | 0, cs => cs
  | fuel + 1, cs =>
    match strFind old cs with
    | none => cs
    | some (pre, post) => pre ++ new ++ pyReplaceAux old new fuel post

/-- Python `str.replace old new`. -/
def pyReplace (old new cs : List Char) : List Char :=
  pyReplaceAux old new (cs.length + 1) cs

/-! ### The regex engine -/

/-- The character classes appearing in the scripts' patterns. -/
inductive Cls where
  | tab        -- `\t`
  | ws         -- `\s`
  | notComma   -- `[^,]`
  | notQuote   -- `[^"]`
  | notRBrace  -- `[^}]`
  | notLBrace  -- `[^{]`
  | notRParen  -- `[^)]`
  | notI       -- `[^I]`
  | notNL      -- `.` without DOTALL
  | notCommaWs -- `[^,\s]`
  deriving DecidableEq

/-- Membership in a character class. -/
def Cls.mem : Cls → Char → Bool
  | .tab, c => c = '\t'
  | .ws, c => isWs c
  | .notComma, c => !(c = ',')
  | .notQuote, c => !(c = '"')
  | .notRBrace, c => !(c = '\x7d')
  | .notLBrace, c => !(c = '\x7b')
  | .notRParen, c => !(c = ')')
  | .notI, c => !(c = 'I')
  | .notNL, c => !(c = '\n')
  | .notCommaWs, c => !(c = ',') && !(isWs c)

/-- Regular expressions as used by the scripts: literal strings, one
character of a class, greedy `+` and `*` over a class, capturing groups,
concatenation. -/
inductive RE where
  | str : List Char → RE
  | one : Cls → RE
  | plus : Cls → RE
  | star : Cls → RE
  | grp : Nat → RE → RE
  | seq : RE → RE → RE

/-- Concatenation of a list of regex pieces. -/
def cat : List RE → RE
  | [] => .str []
  | [r] => r
  | r :: rs => .seq r (cat rs)

/-- Capture groups: an association list from group number to captured text. -/
abbrev Groups := List (Nat × List Char)

/-- Look up a capture group. -/
def gget (g : Groups) (n : Nat) : Option (List Char) :=
  match g with
  | [] => none
  | p :: rest => if p.1 = n then some p.2 else gget rest n

/-- Longest prefix of characters satisfying a class, with the remainder. -/
def clsTake (p : Cls) : List Char → List Char × List Char
  | [] => ([], [])
  | c :: cs =>
    if p.mem c then
      let r := clsTake p cs
      (c :: r.1, r.2)
    else ([], c :: cs)

/-- All splits of `rp.reverse ++ suf` at positions inside `rp.reverse`,
longest prefix first (backtracking priority for a greedy quantifier).
`rp` is the reversed prefix. -/
def downSplits : List Char → List Char → List (List Char × List Char)
  | [], suf => [([], suf)]
  | c :: rp, suf => ((c :: rp).reverse, suf) :: downSplits rp (c :: suf)

/-- Greedy-first splits for `cls*` applied to `cs`. -/
def starSplits (p : Cls) (cs : List Char) : List (List Char × List Char) :=
  downSplits (clsTake p cs).1.reverse (clsTake p cs).2

/-- `List.flatMap` written out, to keep full control of the equations. -/
def catMap {α β : Type} (f : α → List β) : List α → List β
  | [] => []
  | a :: l => f a ++ catMap f l

/-- All ways to match a regex against a prefix of `cs`, in backtracking
priority order (greedy first); each result is the group assignment and
the remaining suffix. -/
def mtch : RE → List Char → Groups → List (Groups × List Char)
  | .str s, cs, g =>
    match chopLead s cs with
    | some r => [(g, r)]
    | none => []
  | .one p, cs, g =>
    match cs with
    | [] => []
    | c :: r => if p.mem c then [(g, r)] else []
  | .star p, cs, g => (starSplits p cs).map (fun pr => (g, pr.2))
  | .plus p, cs, g =>
    match cs with
    | [] => []
    | c :: r => if p.mem c then (starSplits p r).map (fun pr => (g, pr.2)) else []
  | .grp n r, cs, g =>
    (mtch r cs g).map (fun pr => ((n, cs.take (cs.length - pr.2.length)) :: pr.1, pr.2))
  | .seq a b, cs, g => catMap (fun pr => mtch b pr.2 pr.1) (mtch a cs g)

/-- Leftmost match: the text before the match, the groups of the
priority-first match there, and the text after the match. -/
def findMatch (r : RE) : List Char → Option (List Char × Groups × List Char)
  | [] =>
    match (mtch r [] []).head? with
    | some pr => some ([], pr.1, pr.2)
    | none => none
  | c :: cs =>
    match (mtch r (c :: cs) []).head? with
    | some pr => some ([], pr.1, pr.2)
    | none => (findMatch r cs).map (fun x => (c :: x.1, x.2.1, x.2.2))

/-- `re.sub` with a replacement function, one leftmost replacement per
step, with fuel (every pattern in the scripts matches at least one
character, so `length + 1` steps suffice). -/
def reSubAux (r : RE) (repl : Groups → List Char) : Nat → List Char → List Char
  | 0, cs => cs
  | fuel + 1, cs =>
    match findMatch r cs with
    | none => cs
    | some (pre, g, post) => pre ++ repl g ++ reSubAux r repl fuel post

/-- Python `re.sub(pattern, repl, text)`. -/
def reSub (r : RE) (repl : Groups → List Char) (cs : List Char) : List Char :=
  reSubAux r repl (cs.length + 1) cs

/-! ### `fix_create_activity.py` -/

/-- Pattern 1 of `fix_create_activity.py`:
`(\t+)const result = await linearClient\.createAgentActivity\(\{\s+agentSessionId: ([^,]+),\s+content: \{\s+type: "([^"]+)",\s+body: ([^}]+)\},\s+\}\);\s+if \(result\.success\) \{\s+(console\.log\([^)]+\);\s+)\} else \{[^}]+result[^}]+\}`
(compiled with `re.DOTALL`). -/
def pattern1 : RE := cat [
  .grp 1 (.plus .tab),
  .str "const result = await linearClient.createAgentActivity(\x7b".data,
  .plus .ws,
  .str "agentSessionId: ".data,
  .grp 2 (.plus .notComma),
  .str ",".data,
  .plus .ws,
  .str "content: \x7b".data,
  .plus .ws,
  .str "type: \"".data,
  .grp 3 (.plus .notQuote),
  .str "\",".data,
  .plus .ws,
  .str "body: ".data,
  .grp 4 (.plus .notRBrace),
  .str "\x7d,".data,
  .plus .ws,
  .str "\x7d);".data,
  .plus .ws,
  .str "if (result.success) \x7b".data,
  .plus .ws,
  .grp 5 (cat [.str "console.log(".data, .plus .notRParen, .str ");".data, .plus .ws]),
  .str "\x7d else \x7b".data,
  .plus .notRBrace,
  .str "result".data,
  .plus .notRBrace,
  .str "\x7d".data]

/-- The replacement callback `fix_inline_with_result` of
`fix_create_activity.py` (without the diagnostic counter). -/
def fix_inline_with_result (g : Groups) : List Char :=
  let indent := (gget g 1).getD []
  let session_id := (gget g 2).getD []
  let type_str := (gget g 3).getD []
  let body := stripComma (pyStrip ((gget g 4).getD []))
  let log_line := (gget g 5).getD []
  let type_enum := pyCapitalize type_str
  indent ++ "await linearClient.createAgentActivity(".data ++ session_id ++ ", \x7b\n".data ++
  indent ++ "\ttype: AgentActivityContentType.".data ++ type_enum ++ ",\n".data ++
  indent ++ "\tbody: ".data ++ body ++ ",\n".data ++
  indent ++ "\x7d);\n\n".data ++
  indent ++ log_line

/-- Pattern 2 of `fix_create_activity.py`:
`(\t+)await linearClient\.createAgentActivity\(\{\s+agentSessionId: ([^,]+),\s+content: \{\s+type: "([^"]+)",\s+body: ([^}]+)\},\s+\}\);`
(compiled with `re.DOTALL`). -/
def pattern2 : RE := cat [
  .grp 1 (.plus .tab),
  .str "await linearClient.createAgentActivity(\x7b".data,
  .plus .ws,
  .str "agentSessionId: ".data,
  .grp 2 (.plus .notComma),
  .str ",".data,
  .plus .ws,
  .str "content: \x7b".data,
  .plus .ws,
  .str "type: \"".data,
  .grp 3 (.plus .notQuote),
  .str "\",".data,
  .plus .ws,
  .str "body: ".data,
  .grp 4 (.plus .notRBrace),
  .str "\x7d,".data,
  .plus .ws,
  .str "\x7d);".data]

/-- The replacement callback `fix_await_no_result` of
`fix_create_activity.py`. -/
def fix_await_no_result (g : Groups) : List Char :=
  let indent := (gget g 1).getD []
  let session_id := (gget g 2).getD []
  let type_str := (gget g 3).getD []
  let body_content := (gget g 4).getD []
  let type_enum := pyCapitalize type_str
  indent ++ "await linearClient.createAgentActivity(".data ++ session_id ++ ", \x7b\n".data ++
  indent ++ "\ttype: AgentActivityContentType.".data ++ type_enum ++ ",\n".data ++
  indent ++ "\tbody: ".data ++ body_content ++ "\n".data ++
  indent ++ "\x7d);".data

/-- Pattern 3 of `fix_create_activity.py`:
`(\t+)const activityInput = \{\s+agentSessionId: ([^,]+),\s+content: \{\s+type: "([^"]+)",\s+body: ([^}]+)\},\s+\};\s+const result = await linearClient\.createAgentActivity\(activityInput\);\s+if \(result\.success\) \{\s+(console\.log\([^)]+\);\s+)\} else \{[^}]+result[^}]+\}`
(compiled with `re.DOTALL`). -/
def pattern3 : RE := cat [
  .grp 1 (.plus .tab),
  .str "const activityInput = \x7b".data,
  .plus .ws,
  .str "agentSessionId: ".data,
  .grp 2 (.plus .notComma),
  .str ",".data,
  .plus .ws,
  .str "content: \x7b".data,
  .plus .ws,
  .str "type: \"".data,
  .grp 3 (.plus .notQuote),
  .str "\",".data,
  .plus .ws,
  .str "body: ".data,
  .grp 4 (.plus .notRBrace),
  .str "\x7d,".data,
  .plus .ws,
  .str "\x7d;".data,
  .plus .ws,
  .str "const result = await linearClient.createAgentActivity(activityInput);".data,
  .plus .ws,
  .str "if (result.success) \x7b".data,
  .plus .ws,
  .grp 5 (cat [.str "console.log(".data, .plus .notRParen, .str ");".data, .plus .ws]),
  .str "\x7d else \x7b".data,
  .plus .notRBrace,
  .str "result".data,
  .plus .notRBrace,
  .str "\x7d".data]

/-- The replacement callback `fix_activity_input` of
`fix_create_activity.py`. -/
def fix_activity_input (g : Groups) : List Char :=
  let indent := (gget g 1).getD []
  let session_id := (gget g 2).getD []
  let type_str := (gget g 3).getD []
  let body := stripComma (pyStrip ((gget g 4).getD []))
  let log_line := (gget g 5).getD []
  let type_enum := pyCapitalize type_str
  indent ++ "await linearClient.createAgentActivity(".data ++ session_id ++ ", \x7b\n".data ++
  indent ++ "\ttype: AgentActivityContentType.".data ++ type_enum ++ ",\n".data ++
  indent ++ "\tbody: ".data ++ body ++ ",\n".data ++
  indent ++ "\x7d);\n".data ++
  indent ++ log_line

/-- The whole in-memory transformation of `fix_create_activity.py`: the
three `re.sub` passes applied in source order. -/
def fix_create_activity (content : List Char) : List Char :=
  reSub pattern3 fix_activity_input
    (reSub pattern2 fix_await_no_result
      (reSub pattern1 fix_inline_with_result content))

/-! ### `fix_method_signatures.py` -/

/-- Fix 1 pattern:
`await linearClient\.fetchComments\(\{\s*filter:\s*\{\s*issue:\s*\{\s*id:\s*\{\s*eq:\s*([^}]+)\s*\}\s*\}\s*\}\s*\}\)`. -/
def fetchCommentsPat : RE := cat [
  .str "await linearClient.fetchComments(\x7b".data,
  .star .ws, .str "filter:".data,
  .star .ws, .str "\x7b".data,
  .star .ws, .str "issue:".data,
  .star .ws, .str "\x7b".data,
  .star .ws, .str "id:".data,
  .star .ws, .str "\x7b".data,
  .star .ws, .str "eq:".data,
  .star .ws, .grp 1 (.plus .notRBrace),
  .star .ws, .str "\x7d".data,
  .star .ws, .str "\x7d".data,
  .star .ws, .str "\x7d".data,
  .star .ws, .str "\x7d)".data]

/-- Fix 1 replacement template `await linearClient.fetchComments(\1)`. -/
def fetchCommentsRepl (g : Groups) : List Char :=
  "await linearClient.fetchComments(".data ++ (gget g 1).getD [] ++ ")".data

/-- Fix 2 pattern: `await linearClient\.fetchComment\(\{\s*id:\s*([^}]+)\s*\}\)`. -/
def fetchCommentPat : RE := cat [
  .str "await linearClient.fetchComment(\x7b".data,
  .star .ws, .str "id:".data,
  .star .ws, .grp 1 (.plus .notRBrace),
  .star .ws, .str "\x7d)".data]

/-- Fix 2 replacement template `await linearClient.fetchComment(\1)`. -/
def fetchCommentRepl (g : Groups) : List Char :=
  "await linearClient.fetchComment(".data ++ (gget g 1).getD [] ++ ")".data

/-- Fix 3 pattern:
`await linearClient\.fetchWorkflowStates\(\{\s*filter:\s*\{\s*team:\s*\{\s*id:\s*\{\s*eq:\s*([^}]+)\s*\}\s*\}\s*\}\s*\}\)`. -/
def fetchWorkflowStatesPat : RE := cat [
  .str "await linearClient.fetchWorkflowStates(\x7b".data,
  .star .ws, .str "filter:".data,
  .star .ws, .str "\x7b".data,
  .star .ws, .str "team:".data,
  .star .ws, .str "\x7b".data,
  .star .ws, .str "id:".data,
  .star .ws, .str "\x7b".data,
  .star .ws, .str "eq:".data,
  .star .ws, .grp 1 (.plus .notRBrace),
  .star .ws, .str "\x7d".data,
  .star .ws, .str "\x7d".data,
  .star .ws, .str "\x7d".data,
  .star .ws, .str "\x7d)".data]

/-- Fix 3 replacement template `await linearClient.fetchWorkflowStates(\1)`. -/
def fetchWorkflowStatesRepl (g : Groups) : List Char :=
  "await linearClient.fetchWorkflowStates(".data ++ (gget g 1).getD [] ++ ")".data

/-- Fix 4 pattern: `\.parent([^I])`. -/
def parentPat : RE := cat [.str ".parent".data, .grp 1 (.one .notI)]

/-- Fix 4 replacement template `.parentId\1`. -/
def parentRepl (g : Groups) : List Char :=
  ".parentId".data ++ (gget g 1).getD []

/-- The whole in-memory transformation of `fix_method_signatures.py`: the
four `re.sub` passes applied in source order. -/
def fix_method_signatures (content : List Char) : List Char :=
  reSub parentPat parentRepl
    (reSub fetchWorkflowStatesPat fetchWorkflowStatesRepl
      (reSub fetchCommentPat fetchCommentRepl
        (reSub fetchCommentsPat fetchCommentsRepl content)))

/-! ### `fix_last_three.py` -/

/-- The `old1` literal block of `fix_last_three.py`. -/
def old1 : List Char := "await linearClient.createAgentActivity(\x7b\n\t\t\t\t\t\t\t\t\tagentSessionId: session.linearAgentActivitySessionId,\n\t\t\t\t\t\t\t\t\tcontent: \x7b\n\t\t\t\t\t\t\t\t\t\ttype: \"response\",\n\t\t\t\t\t\t\t\t\t\tbody: \x60**Repository Removed from Configuration**\\n\\nThis repository (\\\x60$\x7brepo.name\x7d\\\x60) has been removed from the Cyrus configuration. All active sessions for this repository have been stopped.\\n\\nIf you need to continue working on this issue, please contact your administrator to restore the repository configuration.\x60,\n\t\t\t\t\t\t\t\t\t\x7d,\n\t\t\t\t\t\t\t\t\x7d);".data

/-- The `new1` literal block of `fix_last_three.py`. -/
def new1 : List Char := "await linearClient.createAgentActivity(session.linearAgentActivitySessionId, \x7b\n\t\t\t\t\t\t\t\t\ttype: AgentActivityContentType.Response,\n\t\t\t\t\t\t\t\t\tbody: \x60**Repository Removed from Configuration**\\n\\nThis repository (\\\x60$\x7brepo.name\x7d\\\x60) has been removed from the Cyrus configuration. All active sessions for this repository have been stopped.\\n\\nIf you need to continue working on this issue, please contact your administrator to restore the repository configuration.\x60,\n\t\t\t\t\t\t\t\t\x7d);".data

/-- The `old2` literal block of `fix_last_three.py`. -/
def old2 : List Char := "const activityInput = \x7b\n\t\t\t\tagentSessionId: linearAgentActivitySessionId,\n\t\t\t\tcontent: \x7b\n\t\t\t\t\ttype: \"thought\",\n\t\t\t\t\tbody: \x60Entering \x27$\x7bselectedPromptType\x7d\x27 mode because of the \x27$\x7btriggerLabel\x7d\x27 label. I\x27ll follow the $\x7bselectedPromptType\x7d process...\x60,\n\t\t\t\t\x7d,\n\t\t\t\x7d;\n\n\t\t\tconst result = await linearClient.createAgentActivity(activityInput);\n\t\t\tif (result.success) \x7b\n\t\t\t\tconsole.log(\n\t\t\t\t\t\x60[EdgeWorker] Posted system prompt selection thought for session $\x7blinearAgentActivitySessionId\x7d ($\x7bselectedPromptType\x7d mode)\x60,\n\t\t\t\t);\n\t\t\t\x7d else \x7b\n\t\t\t\tconsole.error(\n\t\t\t\t\t\x60[EdgeWorker] Failed to post system prompt selection thought:\x60,\n\t\t\t\t\tresult,\n\t\t\t\t);\n\t\t\t\x7d".data

/-- The `new2` literal block of `fix_last_three.py`. -/
def new2 : List Char := "await linearClient.createAgentActivity(linearAgentActivitySessionId, \x7b\n\t\t\t\ttype: AgentActivityContentType.Thought,\n\t\t\t\tbody: \x60Entering \x27$\x7bselectedPromptType\x7d\x27 mode because of the \x27$\x7btriggerLabel\x7d\x27 label. I\x27ll follow the $\x7bselectedPromptType\x7d process...\x60,\n\t\t\t\x7d);\n\t\t\tconsole.log(\n\t\t\t\t\x60[EdgeWorker] Posted system prompt selection thought for session $\x7blinearAgentActivitySessionId\x7d ($\x7bselectedPromptType\x7d mode)\x60,\n\t\t\t);".data

/-- The `old3` literal block of `fix_last_three.py`. -/
def old3 : List Char := "const activityInput = \x7b\n\t\t\t\tagentSessionId: linearAgentActivitySessionId,\n\t\t\t\tcontent: \x7b\n\t\t\t\t\ttype: \"thought\",\n\t\t\t\t\tbody: message,\n\t\t\t\t\x7d,\n\t\t\t\x7d;\n\n\t\t\tconst result = await linearClient.createAgentActivity(activityInput);\n\t\t\tif (result.success) \x7b\n\t\t\t\tconsole.log(\n\t\t\t\t\t\x60[EdgeWorker] Posted instant prompted acknowledgment thought for session $\x7blinearAgentActivitySessionId\x7d (streaming: $\x7bisStreaming\x7d)\x60,\n\t\t\t\t);\n\t\t\t\x7d else \x7b\n\t\t\t\tconsole.error(\n\t\t\t\t\t\x60[EdgeWorker] Failed to post instant prompted acknowledgment:\x60,\n\t\t\t\t\tresult,\n\t\t\t\t);\n\t\t\t\x7d".data

/-- The `new3` literal block of `fix_last_three.py`. -/
def new3 : List Char := "await linearClient.createAgentActivity(linearAgentActivitySessionId, \x7b\n\t\t\t\ttype: AgentActivityContentType.Thought,\n\t\t\t\tbody: message,\n\t\t\t\x7d);\n\t\t\tconsole.log(\n\t\t\t\t\x60[EdgeWorker] Posted instant prompted acknowledgment thought for session $\x7blinearAgentActivitySessionId\x7d (streaming: $\x7bisStreaming\x7d)\x60,\n\t\t\t);".data

/-- One literal-block fix of `fix_last_three.py`:
`if old in content: content = content.replace(old, new)` plus the printed
success/failure marker (`true` = replaced, `false` = "Could not find pattern"). -/
def applyFix (old new content : List Char) : List Char × Bool :=
  if containsSub old content then (pyReplace old new content, true) else (content, false)

/-- The whole in-memory transformation of `fix_last_three.py`: the three
literal-block fixes in source order, returning the final content and the
three success markers. -/
def fix_last_three (content : List Char) : List Char × (Bool × Bool × Bool) :=
  let r1 := applyFix old1 new1 content
  let r2 := applyFix old2 new2 r1.1
  let r3 := applyFix old3 new3 r2.1
  (r3.1, (r1.2, r2.2, r3.2))

/-! ### `packages/edge-worker/src/fix_all_create_activity.py`

The file is processed as a list of lines (each keeping its trailing
newline).  The module-level variable `success_log` is threaded as
`Option (Option line)`: `none` means the name was never bound (reading it
raises `NameError`, modelled as overall result `none`), `some none` means
it is bound to Python `None`, `some (some l)` means it is bound to line
`l`. -/

/-- `extract_session_id`: `re.search(r'agentSessionId:\s*([^,\s]+)', line)`. -/
def reSessionId : RE :=
  cat [.str "agentSessionId:".data, .star .ws, .grp 1 (.plus .notCommaWs)]

/-- `extract_session_id` of `fix_all_create_activity.py`. -/
def extract_session_id (line : List Char) : Option (List Char) :=
  (findMatch reSessionId line).map (fun x => (gget x.2.1 1).getD [])

/-- `extract_type`: `re.search(r'type:\s*"([^"]+)"', line)`, capitalised. -/
def reType : RE :=
  cat [.str "type:".data, .star .ws, .str "\"".data, .grp 1 (.plus .notQuote), .str "\"".data]

/-- `extract_type` of `fix_all_create_activity.py` (returns `t.capitalize()`). -/
def extract_type (line : List Char) : Option (List Char) :=
  (findMatch reType line).map (fun x => pyCapitalize ((gget x.2.1 1).getD []))

/-- `extract_body_start`: `re.search(r'body:\s*(.+)', line)`, stripped. -/
def reBody : RE := cat [.str "body:".data, .star .ws, .grp 1 (.plus .notNL)]

/-- `extract_body_start` of `fix_all_create_activity.py`
(returns `match.group(1).strip()`). -/
def extract_body_start (line : List Char) : Option (List Char) :=
  (findMatch reBody line).map (fun x => pyStrip ((gget x.2.1 1).getD []))

/-- The pattern-3 guard `await linearClient\.createAgentActivity\([^{]+,\s*\{`
("already in two-parameter form? skip it"). -/
def twoParamPat : RE :=
  cat [.str "await linearClient.createAgentActivity(".data, .plus .notLBrace,
       .str ",".data, .star .ws, .str "\x7b".data]

/-- The pattern-2 loop guard `re.search(r'^\s*\};?\s*$', lines[i])`:
the line is whitespace, one closing brace, an optional semicolon,
then whitespace. -/
def isCloseLine (l : List Char) : Bool :=
  pyStrip l = "\x7d".data || pyStrip l = "\x7d;".data

/-- Python `f'{x}'` for a variable that may hold `None`. -/
def fmtOpt (o : Option (List Char)) : List Char := o.getD "None".data

/-- Python `' '.join`. -/
def joinSpace : List (List Char) → List Char
  | [] => []
  | [x] => x
  | x :: xs => x ++ " ".data ++ joinSpace xs

/-- The field-reading loop shared by pattern 1 and pattern 3 of
`fix_all_create_activity.py`: walks lines after the opening line,
collecting `agentSessionId`, `type`, and (possibly multi-line) `body`,
until a line containing `});`.  Result `none` models the
`AttributeError` raised when a line contains `body:` but
`extract_body_start` returns `None`. -/
def p1Read : List (List Char) → Option (List Char) → Option (List Char) →
    List (List Char) → Bool →
    Option (Option (List Char) × Option (List Char) × List (List Char) × List (List Char))
  | [], sid, ty, bodies, _ => some (sid, ty, bodies, [])
  | l :: rest, sid, ty, bodies, bst =>
    if containsSub "agentSessionId:".data l then
      p1Read rest (extract_session_id l) ty bodies bst
    else if containsSub "type:".data l then
      p1Read rest sid (extract_type l) bodies bst
    else if containsSub "body:".data l then
      match extract_body_start l with
      | none => none
      | some b0 => p1Read rest sid ty (bodies ++ [stripComma b0]) true
    else if bst && !(startsWith "\x7d".data (pyStrip l)) then
      let bl := stripComma (pyStrip l)
      p1Read rest sid ty (if bl.isEmpty then bodies else bodies ++ [bl]) bst
    else if containsSub "\x7d);".data l then
      some (sid, ty, bodies, rest)
    else
      p1Read rest sid ty bodies bst

/-- The pattern-1 `if (result.success)` scan of `fix_all_create_activity.py`:
per-line brace counting from `0` (the `if` line's own brace is never
counted), extraction of the first `console.log` line strictly between the
`if` line and the closing line, and the `else` lookahead with its double
line-advance.  Returns the bound `success_log` value and the lines left
unconsumed. -/
def p1Branch : List (List Char) → Int → Bool → Option (List Char) →
    List (List Char) → Option (List Char) × List (List Char)
  | [], _, _, sl, _ => (sl, [])
  | l :: more, bc, ef, sl, seen =>
    let bc1 : Int := if containsSub "\x7b".data l then bc + 1 else bc
    if containsSub "\x7d".data l then
      if bc1 - 1 = 0 then
        if ef then (sl, more)
        else
          let sl' :=
            match (seen.filter (fun x => containsSub "console.log".data x)).head? with
            | some x => some x
            | none => sl
          match more with
          | [] => (sl', [])
          | m :: more2 =>
            if containsSub "else".data m then p1Branch more2 0 true sl' (seen ++ [l, m])
            else (sl', m :: more2)
      else p1Branch more (bc1 - 1) ef sl (seen ++ [l])
    else p1Branch more bc1 ef sl (seen ++ [l])
termination_by ls _ _ _ _ => ls.length
decreasing_by all_goals simp_wf <;> simp_arith [*]

/-- Pattern 1 of `fix_all_create_activity.py`: the handler for a line
containing `const result = await linearClient.createAgentActivity({`.
Returns the spliced-in lines, the new `success_log` state, and the
remaining lines; `none` models a raised exception (`AttributeError` in
the body reader, or `NameError` when `success_log` is read unbound). -/
def p1Handle (l : List Char) (rest : List (List Char))
    (slog : Option (Option (List Char))) :
    Option (List (List Char) × Option (Option (List Char)) × List (List Char)) :=
  let indent := (l.takeWhile isWs).length
  match p1Read rest none none [] false with
  | none => none
  | some (sid, ty, bodies, rest1) =>
    let st :=
      match rest1 with
      | [] => (slog, rest1)
      | lf :: more =>
        if containsSub "if (result.success)".data lf then
          let pr := p1Branch more 0 false none []
          (some pr.1, pr.2)
        else (slog, rest1)
    match st.1 with
    | none => none
    | some sl =>
      let body_str := if bodies.isEmpty then "body".data else joinSpace bodies
      let indent_str := List.replicate (indent / 4) '\t'
      let newLines :=
        [indent_str ++ "await linearClient.createAgentActivity(".data ++ fmtOpt sid ++ ", \x7b\n".data,
         indent_str ++ "\ttype: AgentActivityContentType.".data ++ fmtOpt ty ++ ",\n".data,
         indent_str ++ "\tbody: ".data ++ body_str ++ ",\n".data,
         indent_str ++ "\x7d);\n".data,
         "\n".data] ++
        (match sl with
         | some x => if x.isEmpty then [] else [x]
         | none => [])
      some (newLines, some sl, st.2)

/-- The field-reading loop of pattern 2 of `fix_all_create_activity.py`:
walks the `activityInput` object literal until a line matching
`^\s*\};?\s*$` (which is not consumed by the loop itself). -/
def p2Read : List (List Char) → Option (List Char) → Option (List Char) →
    List (List Char) → Bool →
    Option (Option (List Char) × Option (List Char) × List (List Char) × List (List Char))
  | [], sid, ty, bodies, _ => some (sid, ty, bodies, [])
  | l :: rest, sid, ty, bodies, bst =>
    if isCloseLine l then some (sid, ty, bodies, l :: rest)
    else if containsSub "agentSessionId:".data l then
      p2Read rest (extract_session_id l) ty bodies bst
    else if containsSub "type:".data l then
      p2Read rest sid (extract_type l) bodies bst
    else if containsSub "body:".data l then
      match extract_body_start l with
      | none => none
      | some b0 => p2Read rest sid ty (bodies ++ [stripComma b0]) true
    else if bst then
      let bl := pyStrip l
      if !bl.isEmpty && !(startsWith "\x7d".data bl) then
        p2Read rest sid ty (bodies ++ [stripComma bl]) bst
      else p2Read rest sid ty bodies bst
    else p2Read rest sid ty bodies bst

/-- Skip the line the pattern-2 reader stopped on (`if i < len(lines): i += 1`). -/
def skipClose : List (List Char) → List (List Char)
  | [] => []
  | _ :: r => r

/-- Skip a blank line if present. -/
def skipBlank : List (List Char) → List (List Char)
  | [] => []
  | l :: r => if (pyStrip l).isEmpty then r else l :: r

/-- Skip the `const result = await linearClient.createAgentActivity(activityInput)` line. -/
def skipConstResult : List (List Char) → List (List Char)
  | [] => []
  | l :: r =>
    if containsSub "const result = await linearClient.createAgentActivity(activityInput)".data l
    then r else l :: r

/-- The inner else-block skipper of pattern 2 (per-line brace counting
from `0` until it returns to `0` on a line containing a brace). -/
def skipElse : List (List Char) → Int → List (List Char)
  | [], _ => []
  | l :: more, bc =>
    let bc1 : Int := if containsSub "\x7b".data l then bc + 1 else bc
    if containsSub "\x7d".data l then
      if bc1 - 1 = 0 then more else skipElse more (bc1 - 1)
    else skipElse more bc1

/-- The pattern-2 `if (result.success)` scan of `fix_all_create_activity.py`:
records the last seen `console.log` line while counting braces, then the
`else` lookahead (also with a double line-advance) skips the else block. -/
def p2Branch : List (List Char) → Int → Option (List Char) →
    Option (List Char) × List (List Char)
  | [], _, sl => (sl, [])
  | l :: more, bc, sl =>
    let bc1 : Int := if containsSub "\x7b".data l then bc + 1 else bc
    let sl1 := if containsSub "console.log".data l then some l else sl
    if containsSub "\x7d".data l then
      if bc1 - 1 = 0 then
        match more with
        | [] => (sl1, [])
        | m :: more2 =>
          if containsSub "else".data m then (sl1, skipElse more2 0)
          else (sl1, m :: more2)
      else p2Branch more (bc1 - 1) sl1
    else p2Branch more bc1 sl1

/-- Pattern 2 of `fix_all_create_activity.py`: the handler for a line
containing `const activityInput = {`.  Always (re)binds `success_log`. -/
def p2Handle (l : List Char) (rest : List (List Char)) :
    Option (List (List Char) × Option (List Char) × List (List Char)) :=
  let indent := (l.takeWhile isWs).length
  match p2Read rest none none [] false with
  | none => none
  | some (sid, ty, bodies, rest1) =>
    let rest2 := skipConstResult (skipBlank (skipClose rest1))
    let br :=
      match rest2 with
      | [] => ((none : Option (List Char)), rest2)
      | lf :: more =>
        if containsSub "if (result.success)".data lf then p2Branch more 0 none
        else (none, rest2)
    let body_str := if bodies.isEmpty then "body".data else joinSpace bodies
    let indent_str := List.replicate (indent / 4) '\t'
    let newLines :=
      [indent_str ++ "await linearClient.createAgentActivity(".data ++ fmtOpt sid ++ ", \x7b\n".data,
       indent_str ++ "\ttype: AgentActivityContentType.".data ++ fmtOpt ty ++ ",\n".data,
       indent_str ++ "\tbody: ".data ++ body_str ++ ",\n".data,
       indent_str ++ "\x7d);\n".data] ++
      (match br.1 with
       | some x => if x.isEmpty then [] else [x]
       | none => [])
    some (newLines, br.1, br.2)

/-- Pattern 3 of `fix_all_create_activity.py`: the handler for a bare
`await linearClient.createAgentActivity({` line (no `const result`),
sharing the pattern-1 field reader; no branch handling, no log. -/
def p3Handle (l : List Char) (rest : List (List Char)) :
    Option (List (List Char) × List (List Char)) :=
  let indent := (l.takeWhile isWs).length
  match p1Read rest none none [] false with
  | none => none
  | some (sid, ty, bodies, rest1) =>
    let body_str := if bodies.isEmpty then "body".data else joinSpace bodies
    let indent_str := List.replicate (indent / 4) '\t'
    let newLines :=
      [indent_str ++ "await linearClient.createAgentActivity(".data ++ fmtOpt sid ++ ", \x7b\n".data,
       indent_str ++ "\ttype: AgentActivityContentType.".data ++ fmtOpt ty ++ ",\n".data,
       indent_str ++ "\tbody: ".data ++ body_str ++ ",\n".data,
       indent_str ++ "\x7d);\n".data]
    some (newLines, rest1)

/-- The outer `while i < len(lines)` loop of `fix_all_create_activity.py`.
Spliced-in replacement lines are never rescanned (the cursor jumps past
them), so the loop emits them and continues on the remaining input. -/
def fixAllLoop : Nat → Option (Option (List Char)) → List (List Char) →
    Option (List (List Char))
  | 0, _, ls => some ls
  | _ + 1, _, [] => some []
  | fuel + 1, slog, l :: rest =>
    if containsSub "const result = await linearClient.createAgentActivity(\x7b".data l then
      match p1Handle l rest slog with
      | none => none
      | some (nl, slog', rest') => (fixAllLoop fuel slog' rest').map (fun out => nl ++ out)
    else if containsSub "const activityInput = \x7b".data l then
      match p2Handle l rest with
      | none => none
      | some (nl, sl, rest') => (fixAllLoop fuel (some sl) rest').map (fun out => nl ++ out)
    else if containsSub "await linearClient.createAgentActivity(\x7b".data l &&
        !(containsSub "const result".data l) then
      if (findMatch twoParamPat l).isSome then
        (fixAllLoop fuel slog rest).map (fun out => l :: out)
      else
        match p3Handle l rest with
        | none => none
        | some (nl, rest') => (fixAllLoop fuel slog rest').map (fun out => nl ++ out)
    else (fixAllLoop fuel slog rest).map (fun out => l :: out)

/-- The whole in-memory transformation of `fix_all_create_activity.py`
on a list of lines; `none` models an uncaught exception. -/
def fix_all_create_activity (ls : List (List Char)) : Option (List (List Char)) :=
  fixAllLoop (ls.length + 1) none ls

/-! ### Lemmas about the matching engine -/

/-- All characters of `s` belong to class `p`. -/
def Sat (p : Cls) (s : List Char) : Prop := ∀ c ∈ s, p.mem c = true

/-- The text `r` does not start with a character of class `p` (so a greedy
quantifier over `p` stops exactly before `r`). -/
def nextNot (p : Cls) : List Char → Prop
  | [] => True
  | c :: _ => p.mem c = false

theorem Sat.left {p : Cls} {a b : List Char} (h : Sat p (a ++ b)) : Sat p a :=
  fun c hc => h c (List.mem_append_left _ hc)

theorem Sat.cons {p : Cls} {c : Char} {s : List Char} (hc : p.mem c = true)
    (hs : Sat p s) : Sat p (c :: s) := by
  intro d hd
  rcases List.mem_cons.mp hd with h | h
  · exact h ▸ hc
  · exact hs d h

theorem chopLead_self (s r : List Char) : chopLead s (s ++ r) = some r := by
  induction s with
  | nil => rfl
  | cons c cs ih => simp [chopLead, ih]

theorem chopLead_sound {s cs r : List Char} (h : chopLead s cs = some r) :
    cs = s ++ r := by
  induction s generalizing cs with
  | nil =>
    simp only [chopLead, Option.some.injEq] at h
    simp [h]
  | cons c s' ih =>
    cases cs with
    | nil => simp [chopLead] at h
    | cons d cs' =>
      by_cases hc : c = d
      · subst hc
        simp only [chopLead, if_pos rfl] at h
        simpa using ih h
      · simp [chopLead, hc] at h

theorem clsTake_nextNot {p : Cls} {r : List Char} (hr : nextNot p r) :
    clsTake p r = ([], r) := by
  cases r with
  | nil => rfl
  | cons c r' =>
    have : p.mem c = false := hr
    simp [clsTake, this]

theorem clsTake_append {p : Cls} {s : List Char} (r : List Char) (hs : Sat p s) :
    clsTake p (s ++ r) = (s ++ (clsTake p r).1, (clsTake p r).2) := by
  induction s with
  | nil => simp
  | cons c s' ih =>
    have hc : p.mem c = true := hs c (List.mem_cons_self _ _)
    have hs' : Sat p s' := fun d hd => hs d (List.mem_cons_of_mem _ hd)
    simp [clsTake, hc, ih hs']

theorem clsTake_of_sat {p : Cls} {s r : List Char} (hs : Sat p s) (hr : nextNot p r) :
    clsTake p (s ++ r) = (s, r) := by
  rw [clsTake_append r hs, clsTake_nextNot hr]
  simp

theorem clsTake_recon (p : Cls) (l : List Char) :
    (clsTake p l).1 ++ (clsTake p l).2 = l := by
  induction l with
  | nil => rfl
  | cons c cs ih =>
    by_cases hc : p.mem c = true
    · simp [clsTake, hc, ih]
    · simp [clsTake, hc]

theorem clsTake_sat (p : Cls) (l : List Char) : Sat p (clsTake p l).1 := by
  induction l with
  | nil => intro c hc; simp [clsTake] at hc
  | cons c cs ih =>
    by_cases hc : p.mem c = true
    · intro d hd
      simp only [clsTake, hc, if_pos] at hd
      rcases List.mem_cons.mp hd with h | h
      · exact h ▸ hc
      · exact ih d h
    · intro d hd
      simp [clsTake, hc] at hd

theorem downSplits_head (rp suf : List Char) :
    (downSplits rp suf).head? = some (rp.reverse, suf) := by
  cases rp <;> rfl

theorem mem_downSplits {a b : List Char} (rp suf : List Char)
    (h : rp.reverse = a ++ b) : (a, b ++ suf) ∈ downSplits rp suf := by
  induction rp generalizing suf a b with
  | nil =>
    have ha : a = [] := by
      have := List.append_eq_nil.mp h.symm
      exact this.1
    have hb : b = [] := by
      have := List.append_eq_nil.mp h.symm
      exact this.2
    subst ha; subst hb
    simp [downSplits]
  | cons c t ih =>
    rcases List.eq_nil_or_concat b with hb | ⟨b0, x, hb⟩
    · subst hb
      simp only [List.append_nil] at h
      rw [downSplits, ← h]
      exact List.mem_cons_self _ _
    · subst hb
      rw [List.concat_eq_append] at h
      have h3 : t.reverse ++ [c] = (a ++ b0) ++ [x] := by
        rw [← List.reverse_cons, h]
        exact (List.append_assoc a b0 [x]).symm
      have hinj := List.append_inj' h3 rfl
      have hrev : t.reverse = a ++ b0 := hinj.1
      have hcx : c = x := by
        have := hinj.2
        simpa using this
      have hmem := ih (c :: suf) hrev
      rw [downSplits]
      refine List.mem_cons_of_mem _ ?_
      have heq : (b0.concat x) ++ suf = b0 ++ (c :: suf) := by
        rw [List.concat_eq_append, List.append_assoc, hcx]
        rfl
      rw [heq]
      exact hmem

theorem downSplits_sound {x : List Char × List Char} (rp suf : List Char)
    (h : x ∈ downSplits rp suf) :
    ∃ a b, rp.reverse = a ++ b ∧ x = (a, b ++ suf) := by
  induction rp generalizing suf with
  | nil =>
    simp only [downSplits, List.mem_singleton] at h
    exact ⟨[], [], by simp, by simp [h]⟩
  | cons c t ih =>
    rw [downSplits] at h
    rcases List.mem_cons.mp h with h | h
    · exact ⟨(c :: t).reverse, [], by simp, by simp [h]⟩
    · rcases ih (c :: suf) h with ⟨a, b, hab, hx⟩
      refine ⟨a, b ++ [c], ?_, ?_⟩
      · rw [List.reverse_cons, hab, List.append_assoc]
      · rw [hx]
        simp

theorem mem_catMap {α β : Type} {f : α → List β} {l : List α} {a : α} {x : β}
    (ha : a ∈ l) (hx : x ∈ f a) : x ∈ catMap f l := by
  induction l with
  | nil => simp at ha
  | cons b t ih =>
    rcases List.mem_cons.mp ha with h | h
    · subst h
      exact List.mem_append_left _ hx
    · exact List.mem_append_right _ (ih h)

theorem catMap_sound {α β : Type} {f : α → List β} {l : List α} {x : β}
    (hx : x ∈ catMap f l) : ∃ a ∈ l, x ∈ f a := by
  induction l with
  | nil => simp [catMap] at hx
  | cons b t ih =>
    rcases List.mem_append.mp hx with h | h
    · exact ⟨b, List.mem_cons_self _ _, h⟩
    · rcases ih h with ⟨a, ha, hxa⟩
      exact ⟨a, List.mem_cons_of_mem _ ha, hxa⟩

/-- The priority-first result of the matcher. -/
def mhead (r : RE) (cs : List Char) (g : Groups) : Option (Groups × List Char) :=
  (mtch r cs g).head?

theorem head?_map {α β : Type} (f : α → β) (l : List α) :
    (l.map f).head? = l.head?.map f := by
  cases l <;> rfl

theorem mhead_str (s r : List Char) (g : Groups) :
    mhead (.str s) (s ++ r) g = some (g, r) := by
  simp [mhead, mtch, chopLead_self]

theorem mhead_one {p : Cls} {c : Char} (r : List Char) (g : Groups)
    (hc : p.mem c = true) : mhead (.one p) (c :: r) g = some (g, r) := by
  simp [mhead, mtch, hc]

theorem mhead_star {p : Cls} {s r : List Char} (g : Groups)
    (hs : Sat p s) (hr : nextNot p r) :
    mhead (.star p) (s ++ r) g = some (g, r) := by
  simp only [mhead, mtch, starSplits, clsTake_of_sat hs hr, head?_map, downSplits_head,
    List.reverse_reverse, Option.map_some']

theorem mhead_plus {p : Cls} {s r : List Char} (g : Groups)
    (hs : Sat p s) (hne : s ≠ []) (hr : nextNot p r) :
    mhead (.plus p) (s ++ r) g = some (g, r) := by
  cases s with
  | nil => exact absurd rfl hne
  | cons c s' =>
    have hc : p.mem c = true := hs c (List.mem_cons_self _ _)
    have hs' : Sat p s' := fun d hd => hs d (List.mem_cons_of_mem _ hd)
    simp only [List.cons_append, mhead, mtch, hc, if_pos]
    simp only [starSplits, clsTake_of_sat hs' hr, head?_map, downSplits_head,
      List.reverse_reverse, Option.map_some']

theorem mhead_grp (s rest : List Char) {r : RE} {n : Nat} {g g' : Groups}
    (h : mhead r (s ++ rest) g = some (g', rest)) :
    mhead (.grp n r) (s ++ rest) g = some ((n, s) :: g', rest) := by
  simp only [mhead, mtch, head?_map] at h ⊢
  rw [h]
  simp only [Option.map_some']
  congr 2
  rw [List.length_append, Nat.add_sub_cancel, List.take_left]

theorem mhead_seq {a b : RE} {cs r1 : List Char} {g g1 : Groups}
    {v : Groups × List Char}
    (h1 : mhead a cs g = some (g1, r1)) (h2 : mhead b r1 g1 = some v) :
    mhead (.seq a b) cs g = some v := by
  simp only [mhead] at h1 h2 ⊢
  cases e : mtch a cs g with
  | nil => rw [e] at h1; simp at h1
  | cons x t =>
    rw [e] at h1
    simp only [List.head?_cons, Option.some.injEq] at h1
    cases e2 : mtch b r1 g1 with
    | nil => rw [e2] at h2; simp at h2
    | cons y t2 =>
      rw [e2] at h2
      simp only [List.head?_cons, Option.some.injEq] at h2
      have e' : mtch a cs g = (g1, r1) :: t := by rw [e, h1]
      show (catMap (fun pr => mtch b pr.2 pr.1) (mtch a cs g)).head? = some v
      rw [e']
      simp only [catMap]
      rw [e2]
      simp [h2]

theorem mem_mtch_str (s r : List Char) (g : Groups) :
    (g, r) ∈ mtch (.str s) (s ++ r) g := by
  simp [mtch, chopLead_self]

theorem mtch_str_sound {s cs : List Char} {g : Groups} {x : Groups × List Char}
    (h : x ∈ mtch (.str s) cs g) : ∃ r, x = (g, r) ∧ cs = s ++ r := by
  simp only [mtch] at h
  cases e : chopLead s cs with
  | none => rw [e] at h; simp at h
  | some r =>
    rw [e] at h
    simp only [List.mem_singleton] at h
    exact ⟨r, h, chopLead_sound e⟩

theorem mem_mtch_plus {p : Cls} {pre : List Char} (r : List Char) (g : Groups)
    (hs : Sat p pre) (hne : pre ≠ []) : (g, r) ∈ mtch (.plus p) (pre ++ r) g := by
  cases pre with
  | nil => exact absurd rfl hne
  | cons c pre' =>
    have hc : p.mem c = true := hs c (List.mem_cons_self _ _)
    have hs' : Sat p pre' := fun d hd => hs d (List.mem_cons_of_mem _ hd)
    simp only [List.cons_append, mtch, hc, if_pos]
    refine List.mem_map.mpr ⟨(pre', r), ?_, rfl⟩
    simp only [starSplits, clsTake_append r hs']
    have : (pre' ++ (clsTake p r).1).reverse.reverse = pre' ++ (clsTake p r).1 :=
      List.reverse_reverse _
    have hmem := mem_downSplits
      ((pre' ++ (clsTake p r).1).reverse) (clsTake p r).2 this
    rwa [clsTake_recon] at hmem

theorem mtch_plus_sound {p : Cls} {cs : List Char} {g : Groups}
    {x : Groups × List Char} (h : x ∈ mtch (.plus p) cs g) :
    ∃ pre r, cs = pre ++ r ∧ pre ≠ [] ∧ Sat p pre ∧ x = (g, r) := by
  cases cs with
  | nil => simp [mtch] at h
  | cons c t =>
    simp only [mtch] at h
    by_cases hc : p.mem c = true
    · rw [if_pos hc] at h
      rcases List.mem_map.mp h with ⟨pr, hpr, hx⟩
      rcases downSplits_sound _ _ hpr with ⟨a, b, hab, hpr'⟩
      rw [List.reverse_reverse] at hab
      refine ⟨c :: a, b ++ (clsTake p t).2, ?_, by simp, ?_, ?_⟩
      · have ht : t = (clsTake p t).1 ++ (clsTake p t).2 := (clsTake_recon p t).symm
        rw [List.cons_append]
        congr 1
        conv_lhs => rw [ht, hab]
        exact List.append_assoc a b _
      · refine Sat.cons hc ?_
        have : Sat p (clsTake p t).1 := clsTake_sat p t
        rw [hab] at this
        exact this.left
      · rw [← hx, hpr']
    · rw [if_neg hc] at h
      simp at h

theorem mem_mtch_seq {a b : RE} {cs r1 : List Char} {g g1 : Groups}
    {x : Groups × List Char} (h1 : (g1, r1) ∈ mtch a cs g)
    (h2 : x ∈ mtch b r1 g1) : x ∈ mtch (.seq a b) cs g :=
  mem_catMap h1 h2

theorem mtch_seq_sound {a b : RE} {cs : List Char} {g : Groups}
    {x : Groups × List Char} (h : x ∈ mtch (.seq a b) cs g) :
    ∃ g1 r1, (g1, r1) ∈ mtch a cs g ∧ x ∈ mtch b r1 g1 := by
  rcases catMap_sound h with ⟨pr, hpr, hx⟩
  exact ⟨pr.1, pr.2, hpr, hx⟩

theorem head?_eq_of_mem_all {α : Type} {l : List α} {v : α}
    (hv : v ∈ l) (hall : ∀ x ∈ l, x = v) : l.head? = some v := by
  cases l with
  | nil => simp at hv
  | cons x t =>
    have : x = v := hall x (List.mem_cons_self _ _)
    rw [List.head?_cons, this]

/-- Unique decomposition at the first closing brace: if two
closing-brace-free prefixes are both followed by a closing brace in the
same text, the prefixes and remainders agree. -/
theorem noBrace_split_unique {A B u v : List Char}
    (hA : Sat .notRBrace A) (hB : Sat .notRBrace B)
    (h : A ++ '\x7d' :: u = B ++ '\x7d' :: v) : A = B ∧ u = v := by
  induction A generalizing B with
  | nil =>
    cases B with
    | nil => simpa using h
    | cons b B' =>
      exfalso
      simp only [List.nil_append, List.cons_append, List.cons.injEq] at h
      have : Cls.mem .notRBrace b = true := hB b (List.mem_cons_self _ _)
      rw [← h.1] at this
      simp [Cls.mem] at this
  | cons a A' ih =>
    cases B with
    | nil =>
      exfalso
      simp only [List.cons_append, List.nil_append, List.cons.injEq] at h
      have : Cls.mem .notRBrace a = true := hA a (List.mem_cons_self _ _)
      rw [h.1] at this
      simp [Cls.mem] at this
    | cons b B' =>
      simp only [List.cons_append, List.cons.injEq] at h
      have hA' : Sat .notRBrace A' := fun d hd => hA d (List.mem_cons_of_mem _ hd)
      have hB' : Sat .notRBrace B' := fun d hd => hB d (List.mem_cons_of_mem _ hd)
      rcases ih hA' hB' h.2 with ⟨h1, h2⟩
      exact ⟨by rw [h.1, h1], h2⟩

theorem sat_result : Sat .notRBrace "result".data := by
  have : ∀ c ∈ "result".data, Cls.mem .notRBrace c = true := by decide
  exact this

/-- The priority-first match of the trailing `[^}]+result[^}]+\}` of
patterns 1 and 3: whatever split backtracking chooses, the match ends at
the first closing brace, so the head result is determined. -/
theorem mhead_elseTail {e1 e2 post : List Char} (g : Groups)
    (h1 : Sat .notRBrace e1) (hne1 : e1 ≠ [])
    (h2 : Sat .notRBrace e2) (hne2 : e2 ≠ []) :
    mhead (.seq (.plus .notRBrace) (.seq (.str "result".data)
        (.seq (.plus .notRBrace) (.str "\x7d".data))))
      (e1 ++ ("result".data ++ (e2 ++ ('\x7d' :: post)))) g = some (g, post) := by
  have hmem : (g, post) ∈ mtch (.seq (.plus .notRBrace) (.seq (.str "result".data)
      (.seq (.plus .notRBrace) (.str "\x7d".data))))
      (e1 ++ ("result".data ++ (e2 ++ ('\x7d' :: post)))) g := by
    refine mem_mtch_seq (mem_mtch_plus _ g h1 hne1) ?_
    refine mem_mtch_seq (mem_mtch_str _ _ g) ?_
    refine mem_mtch_seq (mem_mtch_plus ('\x7d' :: post) g h2 hne2) ?_
    have : ('\x7d' :: post) = "\x7d".data ++ post := rfl
    rw [this]
    exact mem_mtch_str _ _ g
  have hall : ∀ x ∈ mtch (.seq (.plus .notRBrace) (.seq (.str "result".data)
      (.seq (.plus .notRBrace) (.str "\x7d".data))))
      (e1 ++ ("result".data ++ (e2 ++ ('\x7d' :: post)))) g, x = (g, post) := by
    intro x hx
    rcases mtch_seq_sound hx with ⟨ga, ra, hma, hx2⟩
    rcases mtch_plus_sound hma with ⟨p1, r1, hcs, hp1ne, hp1sat, hga⟩
    rcases mtch_seq_sound hx2 with ⟨gb, rb, hmb, hx3⟩
    rcases mtch_str_sound hmb with ⟨r2, hgb, hr1⟩
    rcases mtch_seq_sound hx3 with ⟨gc, rc, hmc, hx4⟩
    rcases mtch_plus_sound hmc with ⟨p3, r3, hr2, hp3ne, hp3sat, hgc⟩
    rcases mtch_str_sound hx4 with ⟨r4, hx5, hr3⟩
    have hga1 : ga = g := congrArg Prod.fst hga
    have hga2 : ra = r1 := congrArg Prod.snd hga
    have hgb1 : gb = ga := congrArg Prod.fst hgb
    have hgb2 : rb = r2 := congrArg Prod.snd hgb
    have hgc1 : gc = gb := congrArg Prod.fst hgc
    have hgc2 : rc = r3 := congrArg Prod.snd hgc
    have h1' : r1 = "result".data ++ r2 := by rw [← hga2, hr1]
    have h2' : r2 = p3 ++ r3 := by rw [← hgb2, hr2]
    have h3' : r3 = "\x7d".data ++ r4 := by rw [← hgc2, hr3]
    have hflat : e1 ++ ("result".data ++ (e2 ++ ('\x7d' :: post))) =
        p1 ++ ("result".data ++ (p3 ++ ("\x7d".data ++ r4))) := by
      rw [hcs, h1', h2', h3']
    have hchain : (p1 ++ "result".data ++ p3) ++ '\x7d' :: r4 =
        (e1 ++ "result".data ++ e2) ++ '\x7d' :: post := by
      have h4 : ("\x7d".data ++ r4) = '\x7d' :: r4 := rfl
      rw [h4] at hflat
      calc (p1 ++ "result".data ++ p3) ++ '\x7d' :: r4
          = p1 ++ ("result".data ++ (p3 ++ '\x7d' :: r4)) := by
            simp [List.append_assoc]
        _ = e1 ++ ("result".data ++ (e2 ++ '\x7d' :: post)) := hflat.symm
        _ = (e1 ++ "result".data ++ e2) ++ '\x7d' :: post := by
            simp [List.append_assoc]
    have hsatL : Sat .notRBrace (p1 ++ "result".data ++ p3) := by
      intro d hd
      rcases List.mem_append.mp hd with hd | hd
      · rcases List.mem_append.mp hd with hd | hd
        · exact hp1sat d hd
        · exact sat_result d hd
      · exact hp3sat d hd
    have hsatR : Sat .notRBrace (e1 ++ "result".data ++ e2) := by
      intro d hd
      rcases List.mem_append.mp hd with hd | hd
      · rcases List.mem_append.mp hd with hd | hd
        · exact h1 d hd
        · exact sat_result d hd
      · exact h2 d hd
    have hfin := noBrace_split_unique hsatL hsatR hchain
    rw [hx5, hgc1, hgb1, hga1, hfin.2]
  exact head?_eq_of_mem_all hmem hall

/-! ### `findMatch` and `reSub` lemmas -/

theorem findMatch_here {r : RE} {cs : List Char} {g : Groups} {rest : List Char}
    (h : mhead r cs [] = some (g, rest)) :
    findMatch r cs = some ([], g, rest) := by
  cases cs with
  | nil =>
    have h' : (mtch r [] []).head? = some (g, rest) := h
    simp only [findMatch, h']
  | cons c cs' =>
    have h' : (mtch r (c :: cs') []).head? = some (g, rest) := h
    simp only [findMatch, h']

theorem findMatch_skip {r : RE} {pre cs : List Char}
    (h : ∀ c ∈ pre, ∀ t, mtch r (c :: t) [] = []) :
    findMatch r (pre ++ cs) =
      (findMatch r cs).map (fun x => (pre ++ x.1, x.2.1, x.2.2)) := by
  induction pre with
  | nil =>
    cases e : findMatch r cs <;> simp [e]
  | cons c pre' ih =>
    have hc : mtch r (c :: (pre' ++ cs)) [] = [] :=
      h c (List.mem_cons_self _ _) _
    have h' : ∀ d ∈ pre', ∀ t, mtch r (d :: t) [] = [] :=
      fun d hd => h d (List.mem_cons_of_mem _ hd)
    have hh : (mtch r (c :: (pre' ++ cs)) []).head? = none := by rw [hc]; rfl
    have hstep : findMatch r ((c :: pre') ++ cs) =
        (findMatch r (pre' ++ cs)).map
          (fun x : List Char × Groups × List Char => (c :: x.1, x.2.1, x.2.2)) := by
      show (match (mtch r (c :: (pre' ++ cs)) []).head? with
        | some pr => some ([], pr.1, pr.2)
        | none => (findMatch r (pre' ++ cs)).map
            (fun x : List Char × Groups × List Char => (c :: x.1, x.2.1, x.2.2))) =
        (findMatch r (pre' ++ cs)).map
          (fun x : List Char × Groups × List Char => (c :: x.1, x.2.1, x.2.2))
      rw [hh]
    rw [hstep, ih h']
    cases e : findMatch r cs <;> simp [e]

theorem mtch_plusStart_nil {p : Cls} {n : Nat} {k : RE} {c : Char}
    {t : List Char} {g : Groups} (hc : p.mem c = false) :
    mtch (.seq (.grp n (.plus p)) k) (c :: t) g = [] := by
  simp [mtch, hc, catMap]

theorem mtch_strStart_nil {c0 : Char} {s : List Char} {k : RE} {c : Char}
    {t : List Char} {g : Groups} (hc : c0 ≠ c) :
    mtch (.seq (.str (c0 :: s)) k) (c :: t) g = [] := by
  simp [mtch, chopLead, hc, catMap]

theorem reSubAux_no_match {r : RE} {f : Groups → List Char} {cs : List Char}
    (h : findMatch r cs = none) : ∀ n, reSubAux r f n cs = cs := by
  intro n
  cases n with
  | zero => rfl
  | succ m =>
    show (match findMatch r cs with
      | none => cs
      | some (pre, g, post) => pre ++ f g ++ reSubAux r f m post) = cs
    rw [h]

theorem reSub_no_match {r : RE} {f : Groups → List Char} {cs : List Char}
    (h : findMatch r cs = none) : reSub r f cs = cs :=
  reSubAux_no_match h _

theorem reSub_single {r : RE} {f : Groups → List Char} {cs pre post : List Char}
    {g : Groups} (h : findMatch r cs = some (pre, g, post))
    (hp : findMatch r post = none) : reSub r f cs = pre ++ f g ++ post := by
  have key : reSubAux r f (cs.length + 1) cs =
      pre ++ f g ++ reSubAux r f cs.length post := by
    show (match findMatch r cs with
      | none => cs
      | some (pre, g, post) => pre ++ f g ++ reSubAux r f cs.length post) =
      pre ++ f g ++ reSubAux r f cs.length post
    rw [h]
  show reSubAux r f (cs.length + 1) cs = _
  rw [key, reSubAux_no_match hp]

/-! ### Parametrised idiom rewrites -/

/-- An arbitrary occurrence of the idiom matched by `pattern2`: `indent`
is the leading tab run, `sid`, `ty`, `body` the captured expressions,
`w1`–`w5` the whitespace runs, `post` the rest of the file. -/
def pattern2Input (indent sid ty body w1 w2 w3 w4 w5 post : List Char) : List Char :=
  indent ++ ("await linearClient.createAgentActivity(\x7b".data ++ (w1 ++
  ("agentSessionId: ".data ++ (sid ++ (",".data ++ (w2 ++ ("content: \x7b".data ++
  (w3 ++ ("type: \"".data ++ (ty ++ ("\",".data ++ (w4 ++ ("body: ".data ++
  (body ++ ("\x7d,".data ++ (w5 ++ ("\x7d);".data ++ post)))))))))))))))))

theorem pattern2_mhead
    {indent sid ty body w1 w2 w3 w4 w5 : List Char} (post : List Char)
    (hind : Sat .tab indent) (hindne : indent ≠ [])
    (hw1 : Sat .ws w1) (hw1ne : w1 ≠ [])
    (hsid : Sat .notComma sid) (hsidne : sid ≠ [])
    (hw2 : Sat .ws w2) (hw2ne : w2 ≠ [])
    (hw3 : Sat .ws w3) (hw3ne : w3 ≠ [])
    (hty : Sat .notQuote ty) (htyne : ty ≠ [])
    (hw4 : Sat .ws w4) (hw4ne : w4 ≠ [])
    (hbody : Sat .notRBrace body) (hbodyne : body ≠ [])
    (hw5 : Sat .ws w5) (hw5ne : w5 ≠ []) :
    mhead pattern2 (pattern2Input indent sid ty body w1 w2 w3 w4 w5 post) []
      = some ([(4, body), (3, ty), (2, sid), (1, indent)], post) := by
  simp only [pattern2, cat, pattern2Input]
  exact
    mhead_seq (mhead_grp indent _ (mhead_plus _ hind hindne rfl))
    (mhead_seq (mhead_str _ _ _)
    (mhead_seq (mhead_plus _ hw1 hw1ne rfl)
    (mhead_seq (mhead_str _ _ _)
    (mhead_seq (mhead_grp sid _ (mhead_plus _ hsid hsidne rfl))
    (mhead_seq (mhead_str _ _ _)
    (mhead_seq (mhead_plus _ hw2 hw2ne rfl)
    (mhead_seq (mhead_str _ _ _)
    (mhead_seq (mhead_plus _ hw3 hw3ne rfl)
    (mhead_seq (mhead_str _ _ _)
    (mhead_seq (mhead_grp ty _ (mhead_plus _ hty htyne rfl))
    (mhead_seq (mhead_str _ _ _)
    (mhead_seq (mhead_plus _ hw4 hw4ne rfl)
    (mhead_seq (mhead_str _ _ _)
    (mhead_seq (mhead_grp body _ (mhead_plus _ hbody hbodyne rfl))
    (mhead_seq (mhead_str _ _ _)
    (mhead_seq (mhead_plus _ hw5 hw5ne rfl)
    (mhead_str _ _ _)))))))))))))))))

theorem pattern2_skip {c : Char} {t : List Char} {g : Groups}
    (hc : Cls.mem .tab c = false) : mtch pattern2 (c :: t) g = [] := by
  simp only [pattern2, cat]
  exact mtch_plusStart_nil hc

theorem pattern2_rewrite
    {indent sid ty body w1 w2 w3 w4 w5 pre post : List Char}
    (hind : Sat .tab indent) (hindne : indent ≠ [])
    (hw1 : Sat .ws w1) (hw1ne : w1 ≠ [])
    (hsid : Sat .notComma sid) (hsidne : sid ≠ [])
    (hw2 : Sat .ws w2) (hw2ne : w2 ≠ [])
    (hw3 : Sat .ws w3) (hw3ne : w3 ≠ [])
    (hty : Sat .notQuote ty) (htyne : ty ≠ [])
    (hw4 : Sat .ws w4) (hw4ne : w4 ≠ [])
    (hbody : Sat .notRBrace body) (hbodyne : body ≠ [])
    (hw5 : Sat .ws w5) (hw5ne : w5 ≠ [])
    (hpre : ∀ c ∈ pre, Cls.mem .tab c = false)
    (hpost : findMatch pattern2 post = none) :
    reSub pattern2 fix_await_no_result
        (pre ++ pattern2Input indent sid ty body w1 w2 w3 w4 w5 post) =
      pre ++
      (indent ++ "await linearClient.createAgentActivity(".data ++ sid ++ ", \x7b\n".data ++
       indent ++ "\ttype: AgentActivityContentType.".data ++ pyCapitalize ty ++ ",\n".data ++
       indent ++ "\tbody: ".data ++ body ++ "\n".data ++
       indent ++ "\x7d);".data) ++ post := by
  have hmh := pattern2_mhead post hind hindne hw1 hw1ne hsid hsidne hw2 hw2ne hw3 hw3ne
    hty htyne hw4 hw4ne hbody hbodyne hw5 hw5ne
  have hfm : findMatch pattern2
      (pre ++ pattern2Input indent sid ty body w1 w2 w3 w4 w5 post) =
      some (pre, [(4, body), (3, ty), (2, sid), (1, indent)], post) := by
    rw [findMatch_skip (fun c hc t => pattern2_skip (hpre c hc))]
    rw [findMatch_here hmh]
    simp
  rw [reSub_single hfm hpost]
  simp [fix_await_no_result, gget, List.append_assoc]

/-- An arbitrary occurrence of the idiom matched by `pattern1`. -/
def pattern1Input (indent sid ty body logArg e1 e2 w1 w2 w3 w4 w5 w6 w7 w8 post : List Char) : List Char :=
  indent ++ ("const result = await linearClient.createAgentActivity(\x7b".data ++ (w1 ++ ("agentSessionId: ".data ++ (sid ++ (",".data ++ (w2 ++ ("content: \x7b".data ++ (w3 ++ ("type: \"".data ++ (ty ++ ("\",".data ++ (w4 ++ ("body: ".data ++ (body ++ ("\x7d,".data ++ (w5 ++ ("\x7d);".data ++ (w6 ++ ("if (result.success) \x7b".data ++ (w7 ++ (("console.log(".data ++ (logArg ++ (");".data ++ (w8)))) ++ ("\x7d else \x7b".data ++ (e1 ++ ("result".data ++ (e2 ++ ('\x7d' :: post))))))))))))))))))))))))))

theorem pattern1_mhead
    {indent sid ty body logArg e1 e2 w1 w2 w3 w4 w5 w6 w7 w8 : List Char} (post : List Char)
    (hind : Sat .tab indent) (hindne : indent ≠ [])
    (hw1 : Sat .ws w1) (hw1ne : w1 ≠ [])
    (hsid : Sat .notComma sid) (hsidne : sid ≠ [])
    (hw2 : Sat .ws w2) (hw2ne : w2 ≠ [])
    (hw3 : Sat .ws w3) (hw3ne : w3 ≠ [])
    (hty : Sat .notQuote ty) (htyne : ty ≠ [])
    (hw4 : Sat .ws w4) (hw4ne : w4 ≠ [])
    (hbody : Sat .notRBrace body) (hbodyne : body ≠ [])
    (hw5 : Sat .ws w5) (hw5ne : w5 ≠ [])
    (hw6 : Sat .ws w6) (hw6ne : w6 ≠ [])
    (hw7 : Sat .ws w7) (hw7ne : w7 ≠ [])
    (hw8 : Sat .ws w8) (hw8ne : w8 ≠ [])
    (hlog : Sat .notRParen logArg) (hlogne : logArg ≠ [])
    (he1 : Sat .notRBrace e1) (he1ne : e1 ≠ [])
    (he2 : Sat .notRBrace e2) (he2ne : e2 ≠ [])
    :
    mhead pattern1 (pattern1Input indent sid ty body logArg e1 e2 w1 w2 w3 w4 w5 w6 w7 w8 post) []
      = some ([(5, "console.log(".data ++ (logArg ++ (");".data ++ (w8)))), (4, body), (3, ty), (2, sid), (1, indent)], post) := by
  have h5 : mhead (.grp 5 (cat [.str "console.log(".data, .plus .notRParen,
        .str ");".data, .plus .ws]))
      (("console.log(".data ++ (logArg ++ (");".data ++ (w8)))) ++ ("\x7d else \x7b".data ++ (e1 ++ ("result".data ++ (e2 ++ ('\x7d' :: post)))))) [(4, body), (3, ty), (2, sid), (1, indent)]
      = some ((5, "console.log(".data ++ (logArg ++ (");".data ++ (w8)))) :: [(4, body), (3, ty), (2, sid), (1, indent)], "\x7d else \x7b".data ++ (e1 ++ ("result".data ++ (e2 ++ ('\x7d' :: post))))) := by
    refine mhead_grp _ _ ?_
    have hassoc : ("console.log(".data ++ (logArg ++ (");".data ++ (w8)))) ++ ("\x7d else \x7b".data ++ (e1 ++ ("result".data ++ (e2 ++ ('\x7d' :: post))))) =
        "console.log(".data ++ (logArg ++ (");".data ++ ((w8) ++ ("\x7d else \x7b".data ++ (e1 ++ ("result".data ++ (e2 ++ ('\x7d' :: post)))))))) := by
      simp [List.append_assoc]
    rw [hassoc]
    simp only [cat]
    exact mhead_seq (mhead_str _ _ _) (mhead_seq (mhead_plus _ hlog hlogne rfl)
      (mhead_seq (mhead_str _ _ _) (mhead_plus _ hw8 hw8ne rfl)))
  simp only [pattern1, cat, pattern1Input]
  exact
    mhead_seq (mhead_grp indent _ (mhead_plus _ hind hindne rfl))
    (mhead_seq (mhead_str _ _ _)
    (mhead_seq (mhead_plus _ hw1 hw1ne rfl)
    (mhead_seq (mhead_str _ _ _)
    (mhead_seq (mhead_grp sid _ (mhead_plus _ hsid hsidne rfl))
    (mhead_seq (mhead_str _ _ _)
    (mhead_seq (mhead_plus _ hw2 hw2ne rfl)
    (mhead_seq (mhead_str _ _ _)
    (mhead_seq (mhead_plus _ hw3 hw3ne rfl)
    (mhead_seq (mhead_str _ _ _)
    (mhead_seq (mhead_grp ty _ (mhead_plus _ hty htyne rfl))
    (mhead_seq (mhead_str _ _ _)
    (mhead_seq (mhead_plus _ hw4 hw4ne rfl)
    (mhead_seq (mhead_str _ _ _)
    (mhead_seq (mhead_grp body _ (mhead_plus _ hbody hbodyne rfl))
    (mhead_seq (mhead_str _ _ _)
    (mhead_seq (mhead_plus _ hw5 hw5ne rfl)
    (mhead_seq (mhead_str _ _ _)
    (mhead_seq (mhead_plus _ hw6 hw6ne rfl)
    (mhead_seq (mhead_str _ _ _)
    (mhead_seq (mhead_plus _ hw7 hw7ne rfl)
    (mhead_seq (h5)
    (mhead_seq (mhead_str _ _ _)
    (mhead_elseTail _ he1 he1ne he2 he2ne)))))))))))))))))))))))

theorem pattern1_skip {c : Char} {t : List Char} {g : Groups}
    (hc : Cls.mem .tab c = false) : mtch pattern1 (c :: t) g = [] := by
  simp only [pattern1, cat]
  exact mtch_plusStart_nil hc

theorem pattern1_rewrite
    {indent sid ty body logArg e1 e2 w1 w2 w3 w4 w5 w6 w7 w8 pre post : List Char}
    (hind : Sat .tab indent) (hindne : indent ≠ [])
    (hw1 : Sat .ws w1) (hw1ne : w1 ≠ [])
    (hsid : Sat .notComma sid) (hsidne : sid ≠ [])
    (hw2 : Sat .ws w2) (hw2ne : w2 ≠ [])
    (hw3 : Sat .ws w3) (hw3ne : w3 ≠ [])
    (hty : Sat .notQuote ty) (htyne : ty ≠ [])
    (hw4 : Sat .ws w4) (hw4ne : w4 ≠ [])
    (hbody : Sat .notRBrace body) (hbodyne : body ≠ [])
    (hw5 : Sat .ws w5) (hw5ne : w5 ≠ [])
    (hw6 : Sat .ws w6) (hw6ne : w6 ≠ [])
    (hw7 : Sat .ws w7) (hw7ne : w7 ≠ [])
    (hw8 : Sat .ws w8) (hw8ne : w8 ≠ [])
    (hlog : Sat .notRParen logArg) (hlogne : logArg ≠ [])
    (he1 : Sat .notRBrace e1) (he1ne : e1 ≠ [])
    (he2 : Sat .notRBrace e2) (he2ne : e2 ≠ [])
    (hpre : ∀ c ∈ pre, Cls.mem .tab c = false)
    (hpost : findMatch pattern1 post = none) :
    reSub pattern1 fix_inline_with_result (pre ++ pattern1Input indent sid ty body logArg e1 e2 w1 w2 w3 w4 w5 w6 w7 w8 post) =
      pre ++
      (indent ++ "await linearClient.createAgentActivity(".data ++ sid ++ ", \x7b\n".data ++
       indent ++ "\ttype: AgentActivityContentType.".data ++ pyCapitalize ty ++ ",\n".data ++
       indent ++ "\tbody: ".data ++ stripComma (pyStrip body) ++ ",\n".data ++
       indent ++ "\x7d);\n\n".data ++
       indent ++ ("console.log(".data ++ (logArg ++ (");".data ++ (w8))))) ++ post := by
  have hmh := pattern1_mhead post hind hindne hw1 hw1ne hsid hsidne hw2 hw2ne hw3 hw3ne
    hty htyne hw4 hw4ne hbody hbodyne hw5 hw5ne hw6 hw6ne hw7 hw7ne hw8 hw8ne
    hlog hlogne he1 he1ne he2 he2ne
  have hfm : findMatch pattern1 (pre ++ pattern1Input indent sid ty body logArg e1 e2 w1 w2 w3 w4 w5 w6 w7 w8 post) =
      some (pre, [(5, "console.log(".data ++ (logArg ++ (");".data ++ (w8)))), (4, body), (3, ty), (2, sid), (1, indent)], post) := by
    rw [findMatch_skip (fun c hc t => pattern1_skip (hpre c hc)), findMatch_here hmh]
    simp
  rw [reSub_single hfm hpost]
  simp [fix_inline_with_result, gget, List.append_assoc]

/-- An arbitrary occurrence of the idiom matched by `pattern3`. -/
def pattern3Input (indent sid ty body logArg e1 e2 w1 w2 w3 w4 w5 w6 w7 w8 w9 post : List Char) : List Char :=
  indent ++ ("const activityInput = \x7b".data ++ (w1 ++ ("agentSessionId: ".data ++ (sid ++ (",".data ++ (w2 ++ ("content: \x7b".data ++ (w3 ++ ("type: \"".data ++ (ty ++ ("\",".data ++ (w4 ++ ("body: ".data ++ (body ++ ("\x7d,".data ++ (w5 ++ ("\x7d;".data ++ (w6 ++ ("const result = await linearClient.createAgentActivity(activityInput);".data ++ (w7 ++ ("if (result.success) \x7b".data ++ (w8 ++ (("console.log(".data ++ (logArg ++ (");".data ++ (w9)))) ++ ("\x7d else \x7b".data ++ (e1 ++ ("result".data ++ (e2 ++ ('\x7d' :: post))))))))))))))))))))))))))))

theorem pattern3_mhead
    {indent sid ty body logArg e1 e2 w1 w2 w3 w4 w5 w6 w7 w8 w9 : List Char} (post : List Char)
    (hind : Sat .tab indent) (hindne : indent ≠ [])
    (hw1 : Sat .ws w1) (hw1ne : w1 ≠ [])
    (hsid : Sat .notComma sid) (hsidne : sid ≠ [])
    (hw2 : Sat .ws w2) (hw2ne : w2 ≠ [])
    (hw3 : Sat .ws w3) (hw3ne : w3 ≠ [])
    (hty : Sat .notQuote ty) (htyne : ty ≠ [])
    (hw4 : Sat .ws w4) (hw4ne : w4 ≠ [])
    (hbody : Sat .notRBrace body) (hbodyne : body ≠ [])
    (hw5 : Sat .ws w5) (hw5ne : w5 ≠ [])
    (hw6 : Sat .ws w6) (hw6ne : w6 ≠ [])
    (hw7 : Sat .ws w7) (hw7ne : w7 ≠ [])
    (hw8 : Sat .ws w8) (hw8ne : w8 ≠ [])
    (hw9 : Sat .ws w9) (hw9ne : w9 ≠ [])
    (hlog : Sat .notRParen logArg) (hlogne : logArg ≠ [])
    (he1 : Sat .notRBrace e1) (he1ne : e1 ≠ [])
    (he2 : Sat .notRBrace e2) (he2ne : e2 ≠ [])
    :
    mhead pattern3 (pattern3Input indent sid ty body logArg e1 e2 w1 w2 w3 w4 w5 w6 w7 w8 w9 post) []
      = some ([(5, "console.log(".data ++ (logArg ++ (");".data ++ (w9)))), (4, body), (3, ty), (2, sid), (1, indent)], post) := by
  have h5 : mhead (.grp 5 (cat [.str "console.log(".data, .plus .notRParen,
        .str ");".data, .plus .ws]))
      (("console.log(".data ++ (logArg ++ (");".data ++ (w9)))) ++ ("\x7d else \x7b".data ++ (e1 ++ ("result".data ++ (e2 ++ ('\x7d' :: post)))))) [(4, body), (3, ty), (2, sid), (1, indent)]
      = some ((5, "console.log(".data ++ (logArg ++ (");".data ++ (w9)))) :: [(4, body), (3, ty), (2, sid), (1, indent)], "\x7d else \x7b".data ++ (e1 ++ ("result".data ++ (e2 ++ ('\x7d' :: post))))) := by
    refine mhead_grp _ _ ?_
    have hassoc : ("console.log(".data ++ (logArg ++ (");".data ++ (w9)))) ++ ("\x7d else \x7b".data ++ (e1 ++ ("result".data ++ (e2 ++ ('\x7d' :: post))))) =
        "console.log(".data ++ (logArg ++ (");".data ++ ((w9) ++ ("\x7d else \x7b".data ++ (e1 ++ ("result".data ++ (e2 ++ ('\x7d' :: post)))))))) := by
      simp [List.append_assoc]
    rw [hassoc]
    simp only [cat]
    exact mhead_seq (mhead_str _ _ _) (mhead_seq (mhead_plus _ hlog hlogne rfl)
      (mhead_seq (mhead_str _ _ _) (mhead_plus _ hw9 hw9ne rfl)))
  simp only [pattern3, cat, pattern3Input]
  exact
    mhead_seq (mhead_grp indent _ (mhead_plus _ hind hindne rfl))
    (mhead_seq (mhead_str _ _ _)
    (mhead_seq (mhead_plus _ hw1 hw1ne rfl)
    (mhead_seq (mhead_str _ _ _)
    (mhead_seq (mhead_grp sid _ (mhead_plus _ hsid hsidne rfl))
    (mhead_seq (mhead_str _ _ _)
    (mhead_seq (mhead_plus _ hw2 hw2ne rfl)
    (mhead_seq (mhead_str _ _ _)
    (mhead_seq (mhead_plus _ hw3 hw3ne rfl)
    (mhead_seq (mhead_str _ _ _)
    (mhead_seq (mhead_grp ty _ (mhead_plus _ hty htyne rfl))
    (mhead_seq (mhead_str _ _ _)
    (mhead_seq (mhead_plus _ hw4 hw4ne rfl)
    (mhead_seq (mhead_str _ _ _)
    (mhead_seq (mhead_grp body _ (mhead_plus _ hbody hbodyne rfl))
    (mhead_seq (mhead_str _ _ _)
    (mhead_seq (mhead_plus _ hw5 hw5ne rfl)
    (mhead_seq (mhead_str _ _ _)
    (mhead_seq (mhead_plus _ hw6 hw6ne rfl)
    (mhead_seq (mhead_str _ _ _)
    (mhead_seq (mhead_plus _ hw7 hw7ne rfl)
    (mhead_seq (mhead_str _ _ _)
    (mhead_seq (mhead_plus _ hw8 hw8ne rfl)
    (mhead_seq (h5)
    (mhead_seq (mhead_str _ _ _)
    (mhead_elseTail _ he1 he1ne he2 he2ne)))))))))))))))))))))))))

theorem pattern3_skip {c : Char} {t : List Char} {g : Groups}
    (hc : Cls.mem .tab c = false) : mtch pattern3 (c :: t) g = [] := by
  simp only [pattern3, cat]
  exact mtch_plusStart_nil hc

theorem pattern3_rewrite
    {indent sid ty body logArg e1 e2 w1 w2 w3 w4 w5 w6 w7 w8 w9 pre post : List Char}
    (hind : Sat .tab indent) (hindne : indent ≠ [])
    (hw1 : Sat .ws w1) (hw1ne : w1 ≠ [])
    (hsid : Sat .notComma sid) (hsidne : sid ≠ [])
    (hw2 : Sat .ws w2) (hw2ne : w2 ≠ [])
    (hw3 : Sat .ws w3) (hw3ne : w3 ≠ [])
    (hty : Sat .notQuote ty) (htyne : ty ≠ [])
    (hw4 : Sat .ws w4) (hw4ne : w4 ≠ [])
    (hbody : Sat .notRBrace body) (hbodyne : body ≠ [])
    (hw5 : Sat .ws w5) (hw5ne : w5 ≠ [])
    (hw6 : Sat .ws w6) (hw6ne : w6 ≠ [])
    (hw7 : Sat .ws w7) (hw7ne : w7 ≠ [])
    (hw8 : Sat .ws w8) (hw8ne : w8 ≠ [])
    (hw9 : Sat .ws w9) (hw9ne : w9 ≠ [])
    (hlog : Sat .notRParen logArg) (hlogne : logArg ≠ [])
    (he1 : Sat .notRBrace e1) (he1ne : e1 ≠ [])
    (he2 : Sat .notRBrace e2) (he2ne : e2 ≠ [])
    (hpre : ∀ c ∈ pre, Cls.mem .tab c = false)
    (hpost : findMatch pattern3 post = none) :
    reSub pattern3 fix_activity_input (pre ++ pattern3Input indent sid ty body logArg e1 e2 w1 w2 w3 w4 w5 w6 w7 w8 w9 post) =
      pre ++
      (indent ++ "await linearClient.createAgentActivity(".data ++ sid ++ ", \x7b\n".data ++
       indent ++ "\ttype: AgentActivityContentType.".data ++ pyCapitalize ty ++ ",\n".data ++
       indent ++ "\tbody: ".data ++ stripComma (pyStrip body) ++ ",\n".data ++
       indent ++ "\x7d);\n".data ++
       indent ++ ("console.log(".data ++ (logArg ++ (");".data ++ (w9))))) ++ post := by
  have hmh := pattern3_mhead post hind hindne hw1 hw1ne hsid hsidne hw2 hw2ne hw3 hw3ne
    hty htyne hw4 hw4ne hbody hbodyne hw5 hw5ne hw6 hw6ne hw7 hw7ne hw8 hw8ne
    hw9 hw9ne hlog hlogne he1 he1ne he2 he2ne
  have hfm : findMatch pattern3 (pre ++ pattern3Input indent sid ty body logArg e1 e2 w1 w2 w3 w4 w5 w6 w7 w8 w9 post) =
      some (pre, [(5, "console.log(".data ++ (logArg ++ (");".data ++ (w9)))), (4, body), (3, ty), (2, sid), (1, indent)], post) := by
    rw [findMatch_skip (fun c hc t => pattern3_skip (hpre c hc)), findMatch_here hmh]
    simp
  rw [reSub_single hfm hpost]
  simp [fix_activity_input, gget, List.append_assoc]

theorem nextNot_append {p : Cls} {X Y : List Char} (hne : X ≠ [])
    (h : nextNot p X) : nextNot p (X ++ Y) := by
  cases X with
  | nil => exact absurd rfl hne
  | cons c t => exact h

theorem mhead_star_nil {p : Cls} {r : List Char} (g : Groups)
    (hr : nextNot p r) : mhead (.star p) r g = some (g, r) := by
  have hs : Sat p [] := fun c hc => absurd hc (List.not_mem_nil c)
  have h := mhead_star g hs hr
  simpa using h

theorem fetchComments_mhead
    {X u1 u2 u3 u4 u5 u6 u7 u8 v1 v2 v3 : List Char} (post : List Char)
    (hu1 : Sat .ws u1) (hu2 : Sat .ws u2) (hu3 : Sat .ws u3) (hu4 : Sat .ws u4)
    (hu5 : Sat .ws u5) (hu6 : Sat .ws u6) (hu7 : Sat .ws u7) (hu8 : Sat .ws u8)
    (hv1 : Sat .ws v1) (hv2 : Sat .ws v2) (hv3 : Sat .ws v3)
    (hX : Sat .notRBrace X) (hXne : X ≠ []) (hXw : nextNot .ws X)
    :
    mhead fetchCommentsPat ("await linearClient.fetchComments(\x7b".data ++ (u1 ++ ("filter:".data ++ (u2 ++ ("\x7b".data ++ (u3 ++ ("issue:".data ++ (u4 ++ ("\x7b".data ++ (u5 ++ ("id:".data ++ (u6 ++ ("\x7b".data ++ (u7 ++ ("eq:".data ++ (u8 ++ (X ++ ("\x7d".data ++ (v1 ++ ("\x7d".data ++ (v2 ++ ("\x7d".data ++ (v3 ++ ("\x7d)".data ++ (post))))))))))))))))))))))))) [] = some ([(1, X)], post) := by
  simp only [fetchCommentsPat, cat]
  exact
    mhead_seq (mhead_str _ _ _)
    (mhead_seq (mhead_star _ hu1 rfl)
    (mhead_seq (mhead_str _ _ _)
    (mhead_seq (mhead_star _ hu2 rfl)
    (mhead_seq (mhead_str _ _ _)
    (mhead_seq (mhead_star _ hu3 rfl)
    (mhead_seq (mhead_str _ _ _)
    (mhead_seq (mhead_star _ hu4 rfl)
    (mhead_seq (mhead_str _ _ _)
    (mhead_seq (mhead_star _ hu5 rfl)
    (mhead_seq (mhead_str _ _ _)
    (mhead_seq (mhead_star _ hu6 rfl)
    (mhead_seq (mhead_str _ _ _)
    (mhead_seq (mhead_star _ hu7 rfl)
    (mhead_seq (mhead_str _ _ _)
    (mhead_seq (mhead_star _ hu8 (nextNot_append hXne hXw))
    (mhead_seq (mhead_grp X _ (mhead_plus _ hX hXne rfl))
    (mhead_seq (mhead_star_nil _ rfl)
    (mhead_seq (mhead_str _ _ _)
    (mhead_seq (mhead_star _ hv1 rfl)
    (mhead_seq (mhead_str _ _ _)
    (mhead_seq (mhead_star _ hv2 rfl)
    (mhead_seq (mhead_str _ _ _)
    (mhead_seq (mhead_star _ hv3 rfl)
    (mhead_str _ _ _))))))))))))))))))))))))

theorem fetchComments_skip {c : Char} {t : List Char} {g : Groups}
    (hc : c ≠ 'a') : mtch fetchCommentsPat (c :: t) g = [] := by
  simp only [fetchCommentsPat, cat]
  exact mtch_strStart_nil (fun h => hc h.symm)

theorem fetchComments_rewrite
    {X u1 u2 u3 u4 u5 u6 u7 u8 v1 v2 v3 pre post : List Char}
    (hu1 : Sat .ws u1) (hu2 : Sat .ws u2) (hu3 : Sat .ws u3) (hu4 : Sat .ws u4)
    (hu5 : Sat .ws u5) (hu6 : Sat .ws u6) (hu7 : Sat .ws u7) (hu8 : Sat .ws u8)
    (hv1 : Sat .ws v1) (hv2 : Sat .ws v2) (hv3 : Sat .ws v3)
    (hX : Sat .notRBrace X) (hXne : X ≠ []) (hXw : nextNot .ws X)
    (hpre : ∀ c ∈ pre, c ≠ 'a')
    (hpost : findMatch fetchCommentsPat post = none) :
    reSub fetchCommentsPat fetchCommentsRepl
      (pre ++ ("await linearClient.fetchComments(\x7b".data ++ (u1 ++ ("filter:".data ++ (u2 ++ ("\x7b".data ++ (u3 ++ ("issue:".data ++ (u4 ++ ("\x7b".data ++ (u5 ++ ("id:".data ++ (u6 ++ ("\x7b".data ++ (u7 ++ ("eq:".data ++ (u8 ++ (X ++ ("\x7d".data ++ (v1 ++ ("\x7d".data ++ (v2 ++ ("\x7d".data ++ (v3 ++ ("\x7d)".data ++ (post)))))))))))))))))))))))))) =
    pre ++ ("await linearClient.fetchComments(".data ++ (X ++ (")".data ++ post))) := by
  have hmh := fetchComments_mhead post hu1 hu2 hu3 hu4 hu5 hu6 hu7 hu8 hv1 hv2 hv3
    hX hXne hXw
  have hfm : findMatch fetchCommentsPat (pre ++ ("await linearClient.fetchComments(\x7b".data ++ (u1 ++ ("filter:".data ++ (u2 ++ ("\x7b".data ++ (u3 ++ ("issue:".data ++ (u4 ++ ("\x7b".data ++ (u5 ++ ("id:".data ++ (u6 ++ ("\x7b".data ++ (u7 ++ ("eq:".data ++ (u8 ++ (X ++ ("\x7d".data ++ (v1 ++ ("\x7d".data ++ (v2 ++ ("\x7d".data ++ (v3 ++ ("\x7d)".data ++ (post)))))))))))))))))))))))))) =
      some (pre, [(1, X)], post) := by
    rw [findMatch_skip (fun c hc t => fetchComments_skip (hpre c hc)), findMatch_here hmh]
    simp
  rw [reSub_single hfm hpost]
  simp [fetchCommentsRepl, gget, List.append_assoc]

theorem fetchComment_mhead {X u1 u2 : List Char} (post : List Char)
    (hu1 : Sat .ws u1) (hu2 : Sat .ws u2)
    (hX : Sat .notRBrace X) (hXne : X ≠ []) (hXw : nextNot .ws X) :
    mhead fetchCommentPat
      ("await linearClient.fetchComment(\x7b".data ++ (u1 ++ ("id:".data ++
        (u2 ++ (X ++ ("\x7d)".data ++ post)))))) [] = some ([(1, X)], post) := by
  simp only [fetchCommentPat, cat]
  exact
    mhead_seq (mhead_str _ _ _)
    (mhead_seq (mhead_star _ hu1 rfl)
    (mhead_seq (mhead_str _ _ _)
    (mhead_seq (mhead_star _ hu2 (nextNot_append hXne hXw))
    (mhead_seq (mhead_grp X _ (mhead_plus _ hX hXne rfl))
    (mhead_seq (mhead_star_nil _ rfl)
    (mhead_str _ _ _))))))

theorem fetchComment_skip {c : Char} {t : List Char} {g : Groups}
    (hc : c ≠ 'a') : mtch fetchCommentPat (c :: t) g = [] := by
  simp only [fetchCommentPat, cat]
  exact mtch_strStart_nil (fun h => hc h.symm)

theorem fetchComment_rewrite {X u1 u2 pre post : List Char}
    (hu1 : Sat .ws u1) (hu2 : Sat .ws u2)
    (hX : Sat .notRBrace X) (hXne : X ≠ []) (hXw : nextNot .ws X)
    (hpre : ∀ c ∈ pre, c ≠ 'a')
    (hpost : findMatch fetchCommentPat post = none) :
    reSub fetchCommentPat fetchCommentRepl
      (pre ++ ("await linearClient.fetchComment(\x7b".data ++ (u1 ++ ("id:".data ++
        (u2 ++ (X ++ ("\x7d)".data ++ post))))))) =
    pre ++ ("await linearClient.fetchComment(".data ++ (X ++ (")".data ++ post))) := by
  have hmh := fetchComment_mhead post hu1 hu2 hX hXne hXw
  have hfm : findMatch fetchCommentPat
      (pre ++ ("await linearClient.fetchComment(\x7b".data ++ (u1 ++ ("id:".data ++
        (u2 ++ (X ++ ("\x7d)".data ++ post))))))) = some (pre, [(1, X)], post) := by
    rw [findMatch_skip (fun c hc t => fetchComment_skip (hpre c hc)), findMatch_here hmh]
    simp
  rw [reSub_single hfm hpost]
  simp [fetchCommentRepl, gget, List.append_assoc]

theorem fetchWorkflowStates_mhead
    {X u1 u2 u3 u4 u5 u6 u7 u8 v1 v2 v3 : List Char} (post : List Char)
    (hu1 : Sat .ws u1) (hu2 : Sat .ws u2) (hu3 : Sat .ws u3) (hu4 : Sat .ws u4)
    (hu5 : Sat .ws u5) (hu6 : Sat .ws u6) (hu7 : Sat .ws u7) (hu8 : Sat .ws u8)
    (hv1 : Sat .ws v1) (hv2 : Sat .ws v2) (hv3 : Sat .ws v3)
    (hX : Sat .notRBrace X) (hXne : X ≠ []) (hXw : nextNot .ws X)
    :
    mhead fetchWorkflowStatesPat ("await linearClient.fetchWorkflowStates(\x7b".data ++ (u1 ++ ("filter:".data ++ (u2 ++ ("\x7b".data ++ (u3 ++ ("team:".data ++ (u4 ++ ("\x7b".data ++ (u5 ++ ("id:".data ++ (u6 ++ ("\x7b".data ++ (u7 ++ ("eq:".data ++ (u8 ++ (X ++ ("\x7d".data ++ (v1 ++ ("\x7d".data ++ (v2 ++ ("\x7d".data ++ (v3 ++ ("\x7d)".data ++ (post))))))))))))))))))))))))) [] = some ([(1, X)], post) := by
  simp only [fetchWorkflowStatesPat, cat]
  exact
    mhead_seq (mhead_str _ _ _)
    (mhead_seq (mhead_star _ hu1 rfl)
    (mhead_seq (mhead_str _ _ _)
    (mhead_seq (mhead_star _ hu2 rfl)
    (mhead_seq (mhead_str _ _ _)
    (mhead_seq (mhead_star _ hu3 rfl)
    (mhead_seq (mhead_str _ _ _)
    (mhead_seq (mhead_star _ hu4 rfl)
    (mhead_seq (mhead_str _ _ _)
    (mhead_seq (mhead_star _ hu5 rfl)
    (mhead_seq (mhead_str _ _ _)
    (mhead_seq (mhead_star _ hu6 rfl)
    (mhead_seq (mhead_str _ _ _)
    (mhead_seq (mhead_star _ hu7 rfl)
    (mhead_seq (mhead_str _ _ _)
    (mhead_seq (mhead_star _ hu8 (nextNot_append hXne hXw))
    (mhead_seq (mhead_grp X _ (mhead_plus _ hX hXne rfl))
    (mhead_seq (mhead_star_nil _ rfl)
    (mhead_seq (mhead_str _ _ _)
    (mhead_seq (mhead_star _ hv1 rfl)
    (mhead_seq (mhead_str _ _ _)
    (mhead_seq (mhead_star _ hv2 rfl)
    (mhead_seq (mhead_str _ _ _)
    (mhead_seq (mhead_star _ hv3 rfl)
    (mhead_str _ _ _))))))))))))))))))))))))

theorem fetchWorkflowStates_skip {c : Char} {t : List Char} {g : Groups}
    (hc : c ≠ 'a') : mtch fetchWorkflowStatesPat (c :: t) g = [] := by
  simp only [fetchWorkflowStatesPat, cat]
  exact mtch_strStart_nil (fun h => hc h.symm)

theorem fetchWorkflowStates_rewrite
    {X u1 u2 u3 u4 u5 u6 u7 u8 v1 v2 v3 pre post : List Char}
    (hu1 : Sat .ws u1) (hu2 : Sat .ws u2) (hu3 : Sat .ws u3) (hu4 : Sat .ws u4)
    (hu5 : Sat .ws u5) (hu6 : Sat .ws u6) (hu7 : Sat .ws u7) (hu8 : Sat .ws u8)
    (hv1 : Sat .ws v1) (hv2 : Sat .ws v2) (hv3 : Sat .ws v3)
    (hX : Sat .notRBrace X) (hXne : X ≠ []) (hXw : nextNot .ws X)
    (hpre : ∀ c ∈ pre, c ≠ 'a')
    (hpost : findMatch fetchWorkflowStatesPat post = none) :
    reSub fetchWorkflowStatesPat fetchWorkflowStatesRepl
      (pre ++ ("await linearClient.fetchWorkflowStates(\x7b".data ++ (u1 ++ ("filter:".data ++ (u2 ++ ("\x7b".data ++ (u3 ++ ("team:".data ++ (u4 ++ ("\x7b".data ++ (u5 ++ ("id:".data ++ (u6 ++ ("\x7b".data ++ (u7 ++ ("eq:".data ++ (u8 ++ (X ++ ("\x7d".data ++ (v1 ++ ("\x7d".data ++ (v2 ++ ("\x7d".data ++ (v3 ++ ("\x7d)".data ++ (post)))))))))))))))))))))))))) =
    pre ++ ("await linearClient.fetchWorkflowStates(".data ++ (X ++ (")".data ++ post))) := by
  have hmh := fetchWorkflowStates_mhead post hu1 hu2 hu3 hu4 hu5 hu6 hu7 hu8 hv1 hv2 hv3
    hX hXne hXw
  have hfm : findMatch fetchWorkflowStatesPat (pre ++ ("await linearClient.fetchWorkflowStates(\x7b".data ++ (u1 ++ ("filter:".data ++ (u2 ++ ("\x7b".data ++ (u3 ++ ("team:".data ++ (u4 ++ ("\x7b".data ++ (u5 ++ ("id:".data ++ (u6 ++ ("\x7b".data ++ (u7 ++ ("eq:".data ++ (u8 ++ (X ++ ("\x7d".data ++ (v1 ++ ("\x7d".data ++ (v2 ++ ("\x7d".data ++ (v3 ++ ("\x7d)".data ++ (post)))))))))))))))))))))))))) =
      some (pre, [(1, X)], post) := by
    rw [findMatch_skip (fun c hc t => fetchWorkflowStates_skip (hpre c hc)), findMatch_here hmh]
    simp
  rw [reSub_single hfm hpost]
  simp [fetchWorkflowStatesRepl, gget, List.append_assoc]

theorem parent_mhead {c : Char} (post : List Char)
    (hc : Cls.mem .notI c = true) :
    mhead parentPat (".parent".data ++ (c :: post)) [] = some ([(1, [c])], post) := by
  simp only [parentPat, cat]
  refine mhead_seq (mhead_str _ _ _) ?_
  have h1 : mhead (.one .notI) ([c] ++ post) [] = some ([], post) := by
    simpa using mhead_one post [] hc
  have h2 : mhead (.grp 1 (.one .notI)) ([c] ++ post) [] =
      some ((1, [c]) :: [], post) := mhead_grp [c] post h1
  simpa using h2

theorem parent_skip {c : Char} {t : List Char} {g : Groups}
    (hc : c ≠ '.') : mtch parentPat (c :: t) g = [] := by
  simp only [parentPat, cat]
  exact mtch_strStart_nil (fun h => hc h.symm)

theorem parent_rewrite {c : Char} {pre post : List Char}
    (hc : c ≠ 'I') (hpre : ∀ d ∈ pre, d ≠ '.')
    (hpost : findMatch parentPat post = none) :
    reSub parentPat parentRepl (pre ++ (".parent".data ++ (c :: post))) =
      pre ++ (".parentId".data ++ (c :: post)) := by
  have hc' : Cls.mem .notI c = true := by simp [Cls.mem, hc]
  have hmh := parent_mhead post hc'
  have hfm : findMatch parentPat (pre ++ (".parent".data ++ (c :: post))) =
      some (pre, [(1, [c])], post) := by
    rw [findMatch_skip (fun d hd t => parent_skip (hpre d hd)), findMatch_here hmh]
    simp
  rw [reSub_single hfm hpost]
  simp [parentRepl, gget, List.append_assoc]

/-! ### Concrete instances for the claims -/

set_option maxRecDepth 20000

/-- A `pattern1` idiom whose success log contains an inner closing
parenthesis, so `[^)]+` cannot span it. -/
def c1cexIn : List Char := "\tconst result = await linearClient.createAgentActivity(\x7b\n\t\tagentSessionId: sid,\n\t\tcontent: \x7b\n\t\t\ttype: \"thought\",\n\t\t\tbody: text,\n\t\t\x7d,\n\t\x7d);\n\tif (result.success) \x7b\n\t\tconsole.log(\x60posted (ok)\x60);\n\t\x7d else \x7b\n\t\tconsole.error(e, result);\n\t\x7d".data

/-- The replacement the claim prescribes for `c1cexIn`. -/
def c1cexClaimed : List Char := "\tawait linearClient.createAgentActivity(sid, \x7b\n\t\ttype: AgentActivityContentType.Thought,\n\t\tbody: text,\n\t\x7d);\n\n\t\tconsole.log(\x60posted (ok)\x60);\n".data

def c1wIn : List Char := "\tconst result = await linearClient.createAgentActivity(\x7b\nagentSessionId: s,\ncontent: \x7b\ntype: \"thought\",\nbody: b\x7d,\n\x7d);\nif (result.success) \x7b\nconsole.log(x);\n\x7d else \x7beresultr\x7d".data

def c1wOut : List Char := "\tawait linearClient.createAgentActivity(s, \x7b\n\t\ttype: AgentActivityContentType.Thought,\n\t\tbody: b,\n\t\x7d);\n\n\tconsole.log(x);\n".data

/-- A representative already-converted file: a two-argument
`createAgentActivity` call, scalar-argument fetch calls, `.parentId`. -/
def convertedRepr : List Char := "\tawait linearClient.createAgentActivity(sessionId, \x7b\n\t\ttype: AgentActivityContentType.Thought,\n\t\tbody: text,\n\t\x7d);\n\tconsole.log(x);\n\tconst comments = await linearClient.fetchComments(issue.id );\n\tconst c = await linearClient.fetchComment(newComment.id );\n\tconst ws = await linearClient.fetchWorkflowStates(team.id );\n\tconst p = comment.parentId;\n".data

/-- Adjacent renamed field accesses: the rename consumes the separator,
so the second occurrence survives the first pass. -/
def parentChain : List Char := ".parent.parentX".data

/-- A `pattern2` idiom whose body is a template literal containing the
text `\x7d,` followed by whitespace and `\x7d);`: the bounded character
class makes the match end inside the literal. -/
def c3In : List Char := "\tawait linearClient.createAgentActivity(\x7b\n\t\tagentSessionId: s,\n\t\tcontent: \x7b\n\t\t\ttype: \"thought\",\n\t\t\tbody: \x60bad \x7d,\n\t\t\t\x7d);\x60,\n\t\t\x7d,\n\t\x7d);".data

/-- What `fix_await_no_result` actually produces on `c3In`: the body is
truncated at the first inner closing brace and the tail of the template
literal is left dangling after the rewritten call. -/
def c3ActualOut : List Char := "\tawait linearClient.createAgentActivity(s, \x7b\n\t\ttype: AgentActivityContentType.Thought,\n\t\tbody: \x60bad \n\t\x7d);\x60,\n\t\t\x7d,\n\t\x7d);".data

/-- A `pattern2`-shaped idiom whose body contains an interpolation with
braces but no `\x7d,`-whitespace-`\x7d);` sequence: the regex finds no match. -/
def c3NoMatchIn : List Char := "\tawait linearClient.createAgentActivity(\x7b\n\t\tagentSessionId: s,\n\t\tcontent: \x7b\n\t\t\ttype: \"thought\",\n\t\t\tbody: \x60a $\x7bx.y\x7d b\x60,\n\t\t\x7d,\n\t\x7d);".data

def c3LinesIn : List (List Char) := [
  "\tawait linearClient.createAgentActivity(\x7b\n".data,
  "\t\tagentSessionId: s,\n".data,
  "\t\tcontent: \x7b\n".data,
  "\t\t\ttype: \"thought\",\n".data,
  "\t\t\tbody: \x60a $\x7bx.y\x7d b\x60,\n".data,
  "\t\t\x7d,\n".data,
  "\t\x7d);\n".data]

def c3LinesOut : List (List Char) := [
  "await linearClient.createAgentActivity(s, \x7b\n".data,
  "\ttype: AgentActivityContentType.Thought,\n".data,
  "\tbody: \x60a $\x7bx.y\x7d b\x60,\n".data,
  "\x7d);\n".data]

def c4In : List Char := "\tawait linearClient.createAgentActivity(\x7b\n\t\tagentSessionId: s,\n\t\tcontent: \x7b\n\t\t\ttype: \"aB\",\n\t\t\tbody: b,\n\t\t\x7d,\n\t\x7d);".data

def c4ActualOut : List Char := "\tawait linearClient.createAgentActivity(s, \x7b\n\t\ttype: AgentActivityContentType.Ab,\n\t\tbody: b,\n\t\t\n\t\x7d);".data

def c4ClaimedOut : List Char := "\tawait linearClient.createAgentActivity(s, \x7b\n\t\ttype: AgentActivityContentType.AB,\n\t\tbody: b,\n\t\t\n\t\x7d);".data

def c4wIn : List Char := "\tawait linearClient.createAgentActivity(\x7b\nagentSessionId: s,\ncontent: \x7b\ntype: \"aB\",\nbody: b\x7d,\n\x7d);".data

def c4wOut : List Char := "\tawait linearClient.createAgentActivity(s, \x7b\n\t\ttype: AgentActivityContentType.Ab,\n\t\tbody: b\n\t\x7d);".data

/-- `old1` with one extra space after `await`: a one-character whitespace
divergence from the stored snippet. -/
def old1Divergent : List Char := "await  linearClient.createAgentActivity(\x7b\n\t\t\t\t\t\t\t\t\tagentSessionId: session.linearAgentActivitySessionId,\n\t\t\t\t\t\t\t\t\tcontent: \x7b\n\t\t\t\t\t\t\t\t\t\ttype: \"response\",\n\t\t\t\t\t\t\t\t\t\tbody: \x60**Repository Removed from Configuration**\\n\\nThis repository (\\\x60$\x7brepo.name\x7d\\\x60) has been removed from the Cyrus configuration. All active sessions for this repository have been stopped.\\n\\nIf you need to continue working on this issue, please contact your administrator to restore the repository configuration.\x60,\n\t\t\t\t\t\t\t\t\t\x7d,\n\t\t\t\t\t\t\t\t\x7d);".data

/-- One occurrence of each of the three fetch idioms. -/
def sigDemo : List Char := "await linearClient.fetchComments(\x7b filter: \x7b issue: \x7b id: \x7b eq: i \x7d \x7d \x7d \x7d);await linearClient.fetchComment(\x7b id: c \x7d);await linearClient.fetchWorkflowStates(\x7b filter: \x7b team: \x7b id: \x7b eq: t \x7d \x7d \x7d \x7d);".data

def sigDemoOut : List Char := "await linearClient.fetchComments(i );await linearClient.fetchComment(c );await linearClient.fetchWorkflowStates(t );".data

def twoComments : List Char := "await linearClient.fetchComment(\x7b id: a \x7d);await linearClient.fetchComment(\x7b id: b \x7d);".data

def twoCommentsOut : List Char := "await linearClient.fetchComment(a );await linearClient.fetchComment(b );".data

/-- A pattern-1 call idiom with no following `if (result.success)`
branch; the first idiom the scanner ever sees. -/
def c8LinesIn : List (List Char) := [
  "\tconst result = await linearClient.createAgentActivity(\x7b\n".data,
  "\t\tagentSessionId: s,\n".data,
  "\t\tcontent: \x7b\n".data,
  "\t\t\ttype: \"thought\",\n".data,
  "\t\t\tbody: b,\n".data,
  "\t\t\x7d,\n".data,
  "\t\x7d);\n".data,
  "\tdoSomethingElse();\n".data]

/-- A call idiom with `agentSessionId` and `type` lines but no `body:`
line at all. -/
def c10LinesIn : List (List Char) := [
  "\tawait linearClient.createAgentActivity(\x7b\n".data,
  "\t\tagentSessionId: s,\n".data,
  "\t\ttype: \"thought\",\n".data,
  "\t\x7d);\n".data]

def c10LinesOut : List (List Char) := [
  "await linearClient.createAgentActivity(s, \x7b\n".data,
  "\ttype: AgentActivityContentType.Thought,\n".data,
  "\tbody: body,\n".data,
  "\x7d);\n".data]

theorem sat_of_all {p : Cls} {s : List Char}
    (h : s.all (fun c => p.mem c) = true) : Sat p s :=
  fun c hc => List.all_eq_true.mp h c hc

/-! ### Claims -/

/-- C9: for every substitution pattern of `fix_create_activity.py` and
`fix_method_signatures.py`, an input in which the pattern finds no match
passes through that substitution unchanged (a no-op, not an error), and
a later pattern's failure to match does not alter the rewrites already
produced by the earlier patterns of the same run (the runs compose the
passes sequentially, so the earlier passes' output is persisted as-is). -/
theorem C9_no_match_no_op :
    (∀ cs, findMatch pattern1 cs = none →
      reSub pattern1 fix_inline_with_result cs = cs) ∧
    (∀ cs, findMatch pattern2 cs = none →
      reSub pattern2 fix_await_no_result cs = cs) ∧
    (∀ cs, findMatch pattern3 cs = none →
      reSub pattern3 fix_activity_input cs = cs) ∧
    (∀ cs, findMatch fetchCommentsPat cs = none →
      reSub fetchCommentsPat fetchCommentsRepl cs = cs) ∧
    (∀ cs, findMatch fetchCommentPat cs = none →
      reSub fetchCommentPat fetchCommentRepl cs = cs) ∧
    (∀ cs, findMatch fetchWorkflowStatesPat cs = none →
      reSub fetchWorkflowStatesPat fetchWorkflowStatesRepl cs = cs) ∧
    (∀ cs, findMatch parentPat cs = none →
      reSub parentPat parentRepl cs = cs) ∧
    (∀ cs, findMatch pattern3 (reSub pattern2 fix_await_no_result
        (reSub pattern1 fix_inline_with_result cs)) = none →
      fix_create_activity cs = reSub pattern2 fix_await_no_result
        (reSub pattern1 fix_inline_with_result cs)) ∧
    (∀ cs, findMatch parentPat (reSub fetchWorkflowStatesPat fetchWorkflowStatesRepl
        (reSub fetchCommentPat fetchCommentRepl
          (reSub fetchCommentsPat fetchCommentsRepl cs))) = none →
      fix_method_signatures cs = reSub fetchWorkflowStatesPat fetchWorkflowStatesRepl
        (reSub fetchCommentPat fetchCommentRepl
          (reSub fetchCommentsPat fetchCommentsRepl cs))) :=
  ⟨fun _ h => reSub_no_match h, fun _ h => reSub_no_match h,
   fun _ h => reSub_no_match h, fun _ h => reSub_no_match h,
   fun _ h => reSub_no_match h, fun _ h => reSub_no_match h,
   fun _ h => reSub_no_match h, fun _ h => reSub_no_match h,
   fun _ h => reSub_no_match h⟩

/-- C9 witness: both no-op statements evaluated at a concrete input
without any occurrence. -/
theorem C9_witness :
    reSub pattern1 fix_inline_with_result "x".data = "x".data ∧
    fix_method_signatures "x".data =
      reSub fetchWorkflowStatesPat fetchWorkflowStatesRepl
        (reSub fetchCommentPat fetchCommentRepl
          (reSub fetchCommentsPat fetchCommentsRepl "x".data)) :=
  ⟨C9_no_match_no_op.1 "x".data rfl,
   C9_no_match_no_op.2.2.2.2.2.2.2.2 "x".data rfl⟩

/-- C5: for each (old, new) pair of `fix_last_three.py`, if the old text
does not occur verbatim in the content the fix performs no mutation and
reports "not found" (`false`); if it does occur, the content is replaced
(Python `str.replace`).  A one-character whitespace divergence
(`old1Divergent`) makes the whole script a reported no-op. -/
theorem C5_literal_fixes :
    (∀ content, containsSub old1 content = false →
        applyFix old1 new1 content = (content, false)) ∧
    (∀ content, containsSub old2 content = false →
        applyFix old2 new2 content = (content, false)) ∧
    (∀ content, containsSub old3 content = false →
        applyFix old3 new3 content = (content, false)) ∧
    (∀ content, containsSub old1 content = true →
        applyFix old1 new1 content = (pyReplace old1 new1 content, true)) ∧
    (∀ content, containsSub old2 content = true →
        applyFix old2 new2 content = (pyReplace old2 new2 content, true)) ∧
    (∀ content, containsSub old3 content = true →
        applyFix old3 new3 content = (pyReplace old3 new3 content, true)) ∧
    (containsSub old1 old1Divergent = false ∧
      fix_last_three old1Divergent = (old1Divergent, false, false, false)) := by
  refine ⟨fun content h => ?_, fun content h => ?_, fun content h => ?_,
    fun content h => ?_, fun content h => ?_, fun content h => ?_, rfl, rfl⟩
  all_goals simp [applyFix, h]

/-- C5 witness: the no-mutation arm at a content without the snippet and
the replacement arm at a content equal to the snippet. -/
theorem C5_witness :
    applyFix old1 new1 "x".data = ("x".data, false) ∧
    applyFix old1 new1 old1 = (pyReplace old1 new1 old1, true) :=
  ⟨C5_literal_fixes.1 "x".data rfl,
   C5_literal_fixes.2.2.2.1 old1 rfl⟩

/-- C2 counterexample: a second run of `fix_method_signatures` changes
its own output on `.parent.parentX`: the first pass consumes the `.` of
the second occurrence and leaves a bare `.parent` that only the second
pass rewrites, so the run is not the identity on the converted text. -/
theorem C2_counterexample :
    fix_method_signatures (fix_method_signatures parentChain) ≠
      fix_method_signatures parentChain := by decide

/-- C2 amended: on a representative already-converted text each script
is the identity (the old-idiom patterns find no match in the
two-argument, scalar-argument and `.parentId` forms); the exception is
the `.parent` rename, which is not idempotent in general because it
consumes the character following a match, as `.parent.parentX` shows. -/
theorem C2_amended :
    fix_create_activity convertedRepr = convertedRepr ∧
    fix_method_signatures convertedRepr = convertedRepr ∧
    findMatch pattern1 convertedRepr = none ∧
    findMatch pattern2 convertedRepr = none ∧
    findMatch pattern3 convertedRepr = none ∧
    findMatch fetchCommentsPat convertedRepr = none ∧
    findMatch fetchCommentPat convertedRepr = none ∧
    findMatch fetchWorkflowStatesPat convertedRepr = none ∧
    findMatch parentPat convertedRepr = none ∧
    fix_method_signatures (fix_method_signatures parentChain) ≠
      fix_method_signatures parentChain :=
  ⟨rfl, rfl, rfl, rfl, rfl, rfl, rfl, rfl, rfl, by decide⟩

/-- C7 counterexample: an occurrence of `.parent` at the end of the text
is not followed by `.parentId`, yet the rename leaves it unchanged,
because `([^I])` must consume a following character. -/
theorem C7_counterexample :
    reSub parentPat parentRepl ".parent".data = ".parent".data ∧
    ".parent".data ≠ ".parentId".data := ⟨rfl, by decide⟩

/-- C7 amended: the rename rewrites `.parent` into `.parentId` exactly
when a following non-`I` character exists, consuming that character;
`.parentId` is left unchanged; but the pass is not idempotent in
general, because the consumed separator can hide an adjacent
occurrence from the first pass (`.parent.parentX`). -/
theorem C7_amended :
    (∀ (c : Char) (pre post : List Char), c ≠ 'I' → (∀ d ∈ pre, d ≠ '.') →
      findMatch parentPat post = none →
      reSub parentPat parentRepl (pre ++ (".parent".data ++ (c :: post))) =
        pre ++ (".parentId".data ++ (c :: post))) ∧
    reSub parentPat parentRepl ".parentId.x".data = ".parentId.x".data ∧
    reSub parentPat parentRepl ".parent".data = ".parent".data ∧
    reSub parentPat parentRepl (reSub parentPat parentRepl parentChain) ≠
      reSub parentPat parentRepl parentChain :=
  ⟨fun _ _ _ hc hpre hpost => parent_rewrite hc hpre hpost, rfl, rfl, by decide⟩

/-- C7 witness: the parametrised rename at a concrete occurrence. -/
theorem C7_witness :
    reSub parentPat parentRepl ".parent;".data = ".parentId;".data := by
  have h := C7_amended.1 ';' [] [] (by decide)
    (fun d hd => absurd hd (List.not_mem_nil d)) rfl
  exact h

/-- C6 counterexample: the captured identifier includes the whitespace
preceding the innermost closing brace (`[^}]+` is greedy and `\s*` may
match empty), so `fetchComment({ id: y })` becomes `fetchComment(y )`,
not the claimed `fetchComment(y)`. -/
theorem C6_counterexample :
    reSub fetchCommentPat fetchCommentRepl
        "await linearClient.fetchComment(\x7b id: y \x7d)".data =
      "await linearClient.fetchComment(y )".data ∧
    "await linearClient.fetchComment(y )".data ≠
      "await linearClient.fetchComment(y)".data := ⟨rfl, by decide⟩

/-- C6 amended: each of the three signature rewrites maps its
filter-wrapped (or id-object) call to the scalar-argument call whose
argument is the captured text, which includes any whitespace before the
innermost closing brace; each substitution is global across the file,
and the three are independent of their order. -/
theorem C6_amended :
    ((∀ X u1 u2 u3 u4 u5 u6 u7 u8 v1 v2 v3 pre post : List Char,
      Sat .ws u1 → Sat .ws u2 → Sat .ws u3 → Sat .ws u4 →
      Sat .ws u5 → Sat .ws u6 → Sat .ws u7 → Sat .ws u8 →
      Sat .ws v1 → Sat .ws v2 → Sat .ws v3 →
      Sat .notRBrace X → X ≠ [] → nextNot .ws X →
      (∀ c ∈ pre, c ≠ 'a') → findMatch fetchCommentsPat post = none →
      reSub fetchCommentsPat fetchCommentsRepl
        (pre ++ ("await linearClient.fetchComments(\x7b".data ++ (u1 ++ ("filter:".data ++ (u2 ++ ("\x7b".data ++ (u3 ++ ("issue:".data ++ (u4 ++ ("\x7b".data ++ (u5 ++ ("id:".data ++ (u6 ++ ("\x7b".data ++ (u7 ++ ("eq:".data ++ (u8 ++ (X ++ ("\x7d".data ++ (v1 ++ ("\x7d".data ++ (v2 ++ ("\x7d".data ++ (v3 ++ ("\x7d)".data ++ (post)))))))))))))))))))))))))) =
      pre ++ ("await linearClient.fetchComments(".data ++ (X ++ (")".data ++ post))))) ∧
    (∀ X u1 u2 pre post : List Char,
      Sat .ws u1 → Sat .ws u2 →
      Sat .notRBrace X → X ≠ [] → nextNot .ws X →
      (∀ c ∈ pre, c ≠ 'a') → findMatch fetchCommentPat post = none →
      reSub fetchCommentPat fetchCommentRepl
        (pre ++ ("await linearClient.fetchComment(\x7b".data ++ (u1 ++ ("id:".data ++
          (u2 ++ (X ++ ("\x7d)".data ++ post))))))) =
      pre ++ ("await linearClient.fetchComment(".data ++ (X ++ (")".data ++ post)))) ∧
    ((∀ X u1 u2 u3 u4 u5 u6 u7 u8 v1 v2 v3 pre post : List Char,
      Sat .ws u1 → Sat .ws u2 → Sat .ws u3 → Sat .ws u4 →
      Sat .ws u5 → Sat .ws u6 → Sat .ws u7 → Sat .ws u8 →
      Sat .ws v1 → Sat .ws v2 → Sat .ws v3 →
      Sat .notRBrace X → X ≠ [] → nextNot .ws X →
      (∀ c ∈ pre, c ≠ 'a') → findMatch fetchWorkflowStatesPat post = none →
      reSub fetchWorkflowStatesPat fetchWorkflowStatesRepl
        (pre ++ ("await linearClient.fetchWorkflowStates(\x7b".data ++ (u1 ++ ("filter:".data ++ (u2 ++ ("\x7b".data ++ (u3 ++ ("team:".data ++ (u4 ++ ("\x7b".data ++ (u5 ++ ("id:".data ++ (u6 ++ ("\x7b".data ++ (u7 ++ ("eq:".data ++ (u8 ++ (X ++ ("\x7d".data ++ (v1 ++ ("\x7d".data ++ (v2 ++ ("\x7d".data ++ (v3 ++ ("\x7d)".data ++ (post)))))))))))))))))))))))))) =
      pre ++ ("await linearClient.fetchWorkflowStates(".data ++ (X ++ (")".data ++ post))))) ∧
    reSub fetchCommentPat fetchCommentRepl twoComments = twoCommentsOut ∧
    (reSub fetchCommentsPat fetchCommentsRepl
      (reSub fetchCommentPat fetchCommentRepl
        (reSub fetchWorkflowStatesPat fetchWorkflowStatesRepl sigDemo)) = sigDemoOut ∧
     reSub fetchCommentsPat fetchCommentsRepl
      (reSub fetchWorkflowStatesPat fetchWorkflowStatesRepl
        (reSub fetchCommentPat fetchCommentRepl sigDemo)) = sigDemoOut ∧
     reSub fetchCommentPat fetchCommentRepl
      (reSub fetchCommentsPat fetchCommentsRepl
        (reSub fetchWorkflowStatesPat fetchWorkflowStatesRepl sigDemo)) = sigDemoOut ∧
     reSub fetchCommentPat fetchCommentRepl
      (reSub fetchWorkflowStatesPat fetchWorkflowStatesRepl
        (reSub fetchCommentsPat fetchCommentsRepl sigDemo)) = sigDemoOut ∧
     reSub fetchWorkflowStatesPat fetchWorkflowStatesRepl
      (reSub fetchCommentsPat fetchCommentsRepl
        (reSub fetchCommentPat fetchCommentRepl sigDemo)) = sigDemoOut ∧
     reSub fetchWorkflowStatesPat fetchWorkflowStatesRepl
      (reSub fetchCommentPat fetchCommentRepl
        (reSub fetchCommentsPat fetchCommentsRepl sigDemo)) = sigDemoOut) :=
  ⟨fun _ _ _ _ _ _ _ _ _ _ _ _ _ _ h1 h2 h3 h4 h5 h6 h7 h8 h9 h10 h11 h12 h13 h14 h15 h16 =>
      fetchComments_rewrite h1 h2 h3 h4 h5 h6 h7 h8 h9 h10 h11 h12 h13 h14 h15 h16,
   fun _ _ _ _ _ h1 h2 h3 h4 h5 h6 h7 => fetchComment_rewrite h1 h2 h3 h4 h5 h6 h7,
   fun _ _ _ _ _ _ _ _ _ _ _ _ _ _ h1 h2 h3 h4 h5 h6 h7 h8 h9 h10 h11 h12 h13 h14 h15 h16 =>
      fetchWorkflowStates_rewrite h1 h2 h3 h4 h5 h6 h7 h8 h9 h10 h11 h12 h13 h14 h15 h16,
   rfl, rfl, rfl, rfl, rfl, rfl, rfl⟩

/-- C6 witness: the `fetchComment` arm evaluated at the concrete
occurrence `{ id: y }` (the captured text is `y` plus the space). -/
theorem C6_witness :
    reSub fetchCommentPat fetchCommentRepl
        "await linearClient.fetchComment(\x7b id: y \x7d)".data =
      "await linearClient.fetchComment(y )".data := by
  have h := C6_amended.2.1 "y ".data " ".data " ".data [] []
    (sat_of_all rfl) (sat_of_all rfl) (sat_of_all rfl) (by decide) rfl
    (fun c hc => absurd hc (List.not_mem_nil c)) rfl
  exact h

/-- C4 counterexample: the content-type constant is produced by Python
`str.capitalize()`, which lower-cases every character after the first,
so the extracted type string `aB` is emitted as
`AgentActivityContentType.Ab`, not `AgentActivityContentType.AB` as the
claim (first letter upper-cased, all other characters unchanged)
prescribes. -/
theorem C4_counterexample :
    reSub pattern2 fix_await_no_result c4In = c4ActualOut ∧
    c4ActualOut ≠ c4ClaimedOut := ⟨rfl, by decide⟩

/-- C4 amended: the emitted constant name is `pyCapitalize` of the
extracted type string: first character upper-cased and every remaining
character lower-cased; on the all-lower-case vocabulary (for example
`thought`) this coincides with leaving the other characters unchanged. -/
theorem C4_amended :
    (∀ indent sid ty body w1 w2 w3 w4 w5 pre post : List Char,
      Sat .tab indent → indent ≠ [] → Sat .ws w1 → w1 ≠ [] →
      Sat .notComma sid → sid ≠ [] → Sat .ws w2 → w2 ≠ [] →
      Sat .ws w3 → w3 ≠ [] → Sat .notQuote ty → ty ≠ [] →
      Sat .ws w4 → w4 ≠ [] → Sat .notRBrace body → body ≠ [] →
      Sat .ws w5 → w5 ≠ [] →
      (∀ c ∈ pre, Cls.mem .tab c = false) → findMatch pattern2 post = none →
    reSub pattern2 fix_await_no_result
        (pre ++ pattern2Input indent sid ty body w1 w2 w3 w4 w5 post) =
      pre ++
      (indent ++ "await linearClient.createAgentActivity(".data ++ sid ++ ", \x7b\n".data ++
       indent ++ "\ttype: AgentActivityContentType.".data ++ pyCapitalize ty ++ ",\n".data ++
       indent ++ "\tbody: ".data ++ body ++ "\n".data ++
       indent ++ "\x7d);".data) ++ post) ∧
    (∀ c : Char, ∀ cs : List Char,
      pyCapitalize (c :: cs) = Char.toUpper c :: cs.map Char.toLower) ∧
    pyCapitalize "thought".data = "Thought".data ∧
    pyCapitalize "aB".data = "Ab".data :=
  ⟨fun _ _ _ _ _ _ _ _ _ _ _ h1 h2 h3 h4 h5 h6 h7 h8 h9 h10 h11 h12 h13 h14 h15 h16 h17 h18 h19 h20 => pattern2_rewrite h1 h2 h3 h4 h5 h6 h7 h8 h9 h10 h11 h12 h13 h14 h15 h16 h17 h18 h19 h20,
   fun _ _ => rfl, rfl, rfl⟩

/-- C4 witness: the pattern-2 rewrite arm evaluated at a concrete idiom
with type string `aB`. -/
theorem C4_witness :
    reSub pattern2 fix_await_no_result c4wIn = c4wOut := by
  have h := C4_amended.1 "\t".data "s".data "aB".data "b".data
    "\n".data "\n".data "\n".data "\n".data "\n".data [] []
    (sat_of_all rfl) (by decide) (sat_of_all rfl) (by decide)
    (sat_of_all rfl) (by decide) (sat_of_all rfl) (by decide)
    (sat_of_all rfl) (by decide) (sat_of_all rfl) (by decide)
    (sat_of_all rfl) (by decide) (sat_of_all rfl) (by decide)
    (sat_of_all rfl) (by decide)
    (fun c hc => absurd hc (List.not_mem_nil c)) rfl
  exact h

/-- C1 counterexample: an occurrence of the inline three-field call
followed by `if (result.success)` whose success-branch `console.log`
text contains an inner closing parenthesis is not matched by any of the
script's patterns (`[^)]+` cannot span the parenthesis), so the
rewriter leaves the whole idiom unchanged instead of replacing it. -/
theorem C1_counterexample :
    fix_create_activity c1cexIn = c1cexIn ∧ c1cexIn ≠ c1cexClaimed :=
  ⟨rfl, by decide⟩

/-- C1 amended: for an occurrence of the inline (`const result = ...`)
or `activityInput` idiom in which the session expression has no comma,
the type literal no double quote, the body expression no closing brace,
the `console.log` argument no closing parenthesis, and the else branch
is brace-free around a mention of `result` — with no tab before the
occurrence and no further match after it — the corresponding
substitution replaces the whole idiom with exactly the two-argument
call (type capitalised via `pyCapitalize`, body stripped of whitespace
and a trailing comma) followed by the preserved success-branch
`console.log` text, the failure branch removed and the temporary
binding dropped. -/
theorem C1_amended :
    (∀ indent sid ty body logArg e1 e2 w1 w2 w3 w4 w5 w6 w7 w8 pre post : List Char,
      Sat .tab indent → indent ≠ [] → Sat .ws w1 → w1 ≠ [] →
      Sat .notComma sid → sid ≠ [] → Sat .ws w2 → w2 ≠ [] →
      Sat .ws w3 → w3 ≠ [] → Sat .notQuote ty → ty ≠ [] →
      Sat .ws w4 → w4 ≠ [] → Sat .notRBrace body → body ≠ [] →
      Sat .ws w5 → w5 ≠ [] → Sat .ws w6 → w6 ≠ [] →
      Sat .ws w7 → w7 ≠ [] → Sat .ws w8 → w8 ≠ [] →
      Sat .notRParen logArg → logArg ≠ [] →
      Sat .notRBrace e1 → e1 ≠ [] → Sat .notRBrace e2 → e2 ≠ [] →
      (∀ c ∈ pre, Cls.mem .tab c = false) → findMatch pattern1 post = none →
    reSub pattern1 fix_inline_with_result (pre ++ pattern1Input indent sid ty body logArg e1 e2 w1 w2 w3 w4 w5 w6 w7 w8 post) =
      pre ++
      (indent ++ "await linearClient.createAgentActivity(".data ++ sid ++ ", \x7b\n".data ++
       indent ++ "\ttype: AgentActivityContentType.".data ++ pyCapitalize ty ++ ",\n".data ++
       indent ++ "\tbody: ".data ++ stripComma (pyStrip body) ++ ",\n".data ++
       indent ++ "\x7d);\n\n".data ++
       indent ++ ("console.log(".data ++ (logArg ++ (");".data ++ (w8))))) ++ post) ∧
    (∀ indent sid ty body logArg e1 e2 w1 w2 w3 w4 w5 w6 w7 w8 w9 pre post : List Char,
      Sat .tab indent → indent ≠ [] → Sat .ws w1 → w1 ≠ [] →
      Sat .notComma sid → sid ≠ [] → Sat .ws w2 → w2 ≠ [] →
      Sat .ws w3 → w3 ≠ [] → Sat .notQuote ty → ty ≠ [] →
      Sat .ws w4 → w4 ≠ [] → Sat .notRBrace body → body ≠ [] →
      Sat .ws w5 → w5 ≠ [] → Sat .ws w6 → w6 ≠ [] →
      Sat .ws w7 → w7 ≠ [] → Sat .ws w8 → w8 ≠ [] → Sat .ws w9 → w9 ≠ [] →
      Sat .notRParen logArg → logArg ≠ [] →
      Sat .notRBrace e1 → e1 ≠ [] → Sat .notRBrace e2 → e2 ≠ [] →
      (∀ c ∈ pre, Cls.mem .tab c = false) → findMatch pattern3 post = none →
    reSub pattern3 fix_activity_input (pre ++ pattern3Input indent sid ty body logArg e1 e2 w1 w2 w3 w4 w5 w6 w7 w8 w9 post) =
      pre ++
      (indent ++ "await linearClient.createAgentActivity(".data ++ sid ++ ", \x7b\n".data ++
       indent ++ "\ttype: AgentActivityContentType.".data ++ pyCapitalize ty ++ ",\n".data ++
       indent ++ "\tbody: ".data ++ stripComma (pyStrip body) ++ ",\n".data ++
       indent ++ "\x7d);\n".data ++
       indent ++ ("console.log(".data ++ (logArg ++ (");".data ++ (w9))))) ++ post) :=
  ⟨fun _ _ _ _ _ _ _ _ _ _ _ _ _ _ _ _ _ h1 h2 h3 h4 h5 h6 h7 h8 h9 h10 h11 h12 h13 h14 h15 h16 h17 h18 h19 h20 h21 h22 h23 h24 h25 h26 h27 h28 h29 h30 h31 h32 => pattern1_rewrite h1 h2 h3 h4 h5 h6 h7 h8 h9 h10 h11 h12 h13 h14 h15 h16 h17 h18 h19 h20 h21 h22 h23 h24 h25 h26 h27 h28 h29 h30 h31 h32,
   fun _ _ _ _ _ _ _ _ _ _ _ _ _ _ _ _ _ _ h1 h2 h3 h4 h5 h6 h7 h8 h9 h10 h11 h12 h13 h14 h15 h16 h17 h18 h19 h20 h21 h22 h23 h24 h25 h26 h27 h28 h29 h30 h31 h32 h33 h34 => pattern3_rewrite h1 h2 h3 h4 h5 h6 h7 h8 h9 h10 h11 h12 h13 h14 h15 h16 h17 h18 h19 h20 h21 h22 h23 h24 h25 h26 h27 h28 h29 h30 h31 h32 h33 h34⟩

/-- C1 witness: the pattern-1 arm evaluated at a concrete idiom. -/
theorem C1_witness :
    reSub pattern1 fix_inline_with_result c1wIn = c1wOut := by
  have h := C1_amended.1 "\t".data "s".data "thought".data "b".data "x".data
    "e".data "r".data
    "\n".data "\n".data "\n".data "\n".data "\n".data "\n".data "\n".data "\n".data
    [] []
    (sat_of_all rfl) (by decide) (sat_of_all rfl) (by decide)
    (sat_of_all rfl) (by decide) (sat_of_all rfl) (by decide)
    (sat_of_all rfl) (by decide) (sat_of_all rfl) (by decide)
    (sat_of_all rfl) (by decide) (sat_of_all rfl) (by decide)
    (sat_of_all rfl) (by decide) (sat_of_all rfl) (by decide)
    (sat_of_all rfl) (by decide) (sat_of_all rfl) (by decide)
    (sat_of_all rfl) (by decide) (sat_of_all rfl) (by decide)
    (sat_of_all rfl) (by decide)
    (fun c hc => absurd hc (List.not_mem_nil c)) rfl
  exact h

/-- C3 counterexample: on `c3In` — a call idiom whose body template
literal contains `\x7d,` followed by whitespace and `\x7d);` — `pattern2`
matches ending inside the literal, and the rewriter truncates the body
expression at the first inner closing brace (the text `\x60bad \x7d,` of
the original body no longer occurs in the output). -/
theorem C3_counterexample :
    reSub pattern2 fix_await_no_result c3In = c3ActualOut ∧
    containsSub "\x60bad \x7d,".data c3ActualOut = false := ⟨rfl, rfl⟩

/-- C3 amended: the line-scanning rewriter extracts a single-line body
expression intact, embedded braces included; the regex-based `pattern2`
either fails to match an idiom whose body contains an inner closing
brace (leaving the idiom unrewritten) or, when the body contains a
`\x7d,`-whitespace-`\x7d);` sequence, truncates it at the first inner
closing brace. -/
theorem C3_amended :
    fix_all_create_activity c3LinesIn = some c3LinesOut ∧
    reSub pattern2 fix_await_no_result c3NoMatchIn = c3NoMatchIn ∧
    reSub pattern2 fix_await_no_result c3In = c3ActualOut := ⟨rfl, rfl, rfl⟩

/-- C8: on the first pattern-1 idiom that is not followed by an
`if (result.success)` branch, the scanner reads the module-level
`success_log` before any binding exists, so the script raises
`NameError` (modelled as result `none`) instead of completing with no
log line appended. -/
theorem C8_crash : fix_all_create_activity c8LinesIn = none := rfl

/-- C10: when the field reader finds no `body:` line at all
(`body_lines` stays empty), the pattern-3 reconstruction emits the
two-argument call with the literal placeholder text `body` as its body
expression rather than failing or skipping the idiom; shown in general
for the handler and end-to-end on a concrete file. -/
theorem C10_body_placeholder :
    (∀ (l : List Char) (rest rest1 : List (List Char))
        (sid ty : Option (List Char)),
      p1Read rest none none [] false = some (sid, ty, [], rest1) →
      p3Handle l rest = some
        ([List.replicate ((l.takeWhile isWs).length / 4) '\t' ++
            "await linearClient.createAgentActivity(".data ++ fmtOpt sid ++ ", \x7b\n".data,
          List.replicate ((l.takeWhile isWs).length / 4) '\t' ++
            "\ttype: AgentActivityContentType.".data ++ fmtOpt ty ++ ",\n".data,
          List.replicate ((l.takeWhile isWs).length / 4) '\t' ++
            "\tbody: ".data ++ "body".data ++ ",\n".data,
          List.replicate ((l.takeWhile isWs).length / 4) '\t' ++ "\x7d);\n".data],
         rest1)) ∧
    fix_all_create_activity c10LinesIn = some c10LinesOut := by
  constructor
  · intro l rest rest1 sid ty h
    simp [p3Handle, h]
  · rfl

/-- C10 witness: the handler arm evaluated on a concrete idiom without
a `body:` line. -/
theorem C10_witness :
    p3Handle "\tawait linearClient.createAgentActivity(\x7b\n".data
        ["\t\tagentSessionId: s,\n".data, "\t\ttype: \"thought\",\n".data,
         "\t\x7d);\n".data] =
      some (["await linearClient.createAgentActivity(s, \x7b\n".data,
             "\ttype: AgentActivityContentType.Thought,\n".data,
             "\tbody: body,\n".data,
             "\x7d);\n".data], []) := by
  have h := C10_body_placeholder.1
    "\tawait linearClient.createAgentActivity(\x7b\n".data
    ["\t\tagentSessionId: s,\n".data, "\t\ttype: \"thought\",\n".data,
     "\t\x7d);\n".data]
    [] (some "s".data) (some "Thought".data) rfl
  exact h

end Cyrus

